import Mathlib

/-!
# Verification development for `container/docker.go`

The Go file is a test fixture driving a Docker daemon through the Docker SDK.
Everything it does is an effect on the outside world, so the embedding is a
state-passing one: a `World` is the chronological log of the external calls made
so far, each recorded with its arguments and with what the outside answered; an
`Env` is the oracle that supplies those answers; a Go function of result type `α`
is a function `World → Outcome α × World`, where an `Outcome` is either a normal
return or a panic carrying its panic value.
-/

namespace Container

/-! ## Go values -/

/-- A non-nil Go `error`, identified by the text its `Error()` method returns.
A Go variable of type `error` is an `Option GoError`, with `none` for `nil`. -/
structure GoError where
  msg : String
  deriving DecidableEq

/-- Go `errors.New(text)`. -/
def errorsNew (text : String) : GoError := ⟨text⟩

/-- Go `time.Duration`, a count of nanoseconds. -/
abbrev Duration := Nat

/-- Go `time.Second`. -/
def Second : Duration := 1000000000

/-! ## SDK data types (only what the source builds or reads) -/

/-- SDK `nat.Port`, as built by `nat.NewPort(proto, port)`. -/
structure Port where
  proto : String
  port : String
  deriving DecidableEq

/-- SDK `nat.NewPort(proto, port)`; the source discards its error result. -/
def natNewPort (proto port : String) : Port := ⟨proto, port⟩

/-- SDK `nat.PortBinding`. -/
structure PortBinding where
  HostIP : String
  HostPort : String
  deriving DecidableEq

/-- SDK `container.Config`, with the two fields the source sets; `ExposedPorts`
is the `nat.PortSet` literal, its keys in source order. -/
structure Config where
  Image : String
  ExposedPorts : List Port
  deriving DecidableEq

/-- SDK `container.HostConfig`, with the field the source sets; `PortBindings` is
the `nat.PortMap` literal, its entries in source order. -/
structure HostConfig where
  PortBindings : List (Port × List PortBinding)
  deriving DecidableEq

/-- SDK `network.NetworkingConfig`; the source passes the empty literal. -/
structure NetworkingConfig where
  EndpointsConfig : List String := []
  deriving DecidableEq

/-- SDK `container.ContainerCreateCreatedBody`. -/
structure ContainerCreateCreatedBody where
  ID : String
  Warnings : List String := []
  deriving DecidableEq

/-- SDK `types.ImagePullOptions`; the source passes the zero value. -/
structure ImagePullOptions where
  All : Bool := false
  RegistryAuth : String := ""
  deriving DecidableEq

/-- SDK `types.ContainerStartOptions`; the source passes the zero value. -/
structure ContainerStartOptions where
  CheckpointID : String := ""
  CheckpointDir : String := ""
  deriving DecidableEq

/-- SDK `types.ContainerRemoveOptions`. -/
structure ContainerRemoveOptions where
  RemoveVolumes : Bool := false
  RemoveLinks : Bool := false
  Force : Bool := false
  deriving DecidableEq

/-- SDK `types.NetworkSettings`, with the field the source reads. -/
structure NetworkSettings where
  IPAddress : String
  deriving DecidableEq

/-- SDK `types.ContainerJSON`, with the field the source reads. The SDK field is a
pointer `*NetworkSettings`: `none` is the nil pointer. -/
structure ContainerJSON where
  NetworkSettings : Option NetworkSettings
  deriving DecidableEq

/-- SDK `types.Volume`, with the field the source reads. -/
structure Volume where
  Name : String
  Driver : String := ""
  Mountpoint : String := ""
  deriving DecidableEq

/-- SDK `volume.VolumeListOKBody`. The SDK slice holds pointers `*types.Volume`:
an element `none` is a nil pointer. -/
structure VolumeListOKBody where
  Volumes : List (Option Volume)
  deriving DecidableEq

/-- SDK `filters.Args`; the source passes the zero value `filters.Args\x7b\x7d`. -/
structure FilterArgs where
  fields : List (String × List String) := []
  deriving DecidableEq

/-- SDK `*client.Client`, as obtained from
`client.NewClientWithOpts(client.WithVersion(v))`. -/
structure Client where
  version : String
  deriving DecidableEq

/-- Result type of the source's own `FindContainerDetails`. -/
structure ContainerDetail where
  Ip : String
  deriving DecidableEq

/-! ## The outside world -/

/-- One external call, with its arguments and the outside's answer. -/
inductive Event where
  | newClient (version : String) (err : Option GoError)
  | imagePull (cli : Client) (ref : String) (opts : ImagePullOptions) (err : Option GoError)
  | copyToStdout (err : Option GoError)
  | closeStream (err : Option GoError)
  | containerCreate (cli : Client) (conf : Config) (host : HostConfig)
      (net : NetworkingConfig) (name : String)
      (body : ContainerCreateCreatedBody) (err : Option GoError)
  | containerStart (cli : Client) (id : String) (opts : ContainerStartOptions)
      (err : Option GoError)
  | containerRemove (cli : Client) (id : String) (opts : ContainerRemoveOptions)
      (err : Option GoError)
  | containerInspect (cli : Client) (id : String) (res : ContainerJSON) (err : Option GoError)
  | volumeList (cli : Client) (filter : FilterArgs) (res : VolumeListOKBody)
      (err : Option GoError)
  | volumeRemove (cli : Client) (name : String) (force : Bool) (err : Option GoError)
  | dial (network address : String) (err : Option GoError)
  | connClose
  | sleep (d : Duration)
  | println (e : GoError)
  deriving DecidableEq

/-- The log of external calls, oldest first. -/
abbrev World := List Event

/-- Whether an event is a `net.Dial`. -/
def Event.isDial : Event → Bool
  | .dial _ _ _ => true
  | _ => false

/-- How many `net.Dial` calls a log holds. -/
def dialsMade (t : List Event) : Nat := t.countP Event.isDial

/-- The oracle answering every external call. Each SDK method answers as a function
of its receiver and arguments; `net.Dial` answers as a function of how many dials
were made before it, of the network and of the address, so that an `Env` fixes
one outcome per dial attempt. Calls returning a value and an error give both. -/
structure Env where
  newClient : String → Option GoError
  imagePull : Client → String → ImagePullOptions → Option GoError
  copyToStdout : Option GoError
  closeStream : Option GoError
  containerCreate : Client → Config → HostConfig → NetworkingConfig → String →
    ContainerCreateCreatedBody × Option GoError
  containerStart : Client → String → ContainerStartOptions → Option GoError
  containerRemove : Client → String → ContainerRemoveOptions → Option GoError
  containerInspect : Client → String → ContainerJSON × Option GoError
  volumeList : Client → FilterArgs → VolumeListOKBody × Option GoError
  volumeRemove : Client → String → Bool → Option GoError
  dial : Nat → String → String → Option GoError

/-- How a Go call ends: a normal return, or a panic with its panic value. Every
`panic` of the source is given an `error`, and the run-time panic of a nil
dereference carries a `runtime.Error`, which is an `error` too. -/
inductive Outcome (α : Type) where
  | returned (a : α)
  | panicked (v : GoError)
  deriving DecidableEq

/-- Whether the call panicked. -/
def Outcome.isPanic {α : Type} : Outcome α → Bool
  | .returned _ => false
  | .panicked _ => true

/-- A Go computation: from the log so far to an outcome and the extended log. -/
def Go (α : Type) : Type := World → Outcome α × World

instance : Monad Go where
  pure a := fun w => (.returned a, w)
  bind m f := fun w =>
    match m w with
    | (.returned a, w1) => f a w1
    | (.panicked v, w1) => (.panicked v, w1)

/-- Go `panic(v)`. -/
def goPanic {α : Type} (v : GoError) : Go α := fun w => (.panicked v, w)

/-- The panic value of the Go run time on a nil pointer dereference. -/
def nilDereference : GoError :=
  ⟨"runtime error: invalid memory address or nil pointer dereference"⟩

/-- Go field selection `p.f` through a pointer `p`: a nil `p` panics. -/
def deref {α : Type} (p : Option α) : Go α :=
  match p with
  | some a => pure a
  | none => goPanic nilDereference

/-- Perform an external call: append its record to the log. -/
def emit (e : Event) : Go Unit := fun w => (.returned (), w ++ [e])

/-! ## External calls -/

/-- Go `fmt.Println(err)` for a non-nil `err`. -/
def fmtPrintln (e : GoError) : Go Unit := emit (.println e)

/-- Go `<-time.After(d)`. -/
def timeAfter (d : Duration) : Go Unit := emit (.sleep d)

/-- Go `net.Dial(network, address)`; the connection itself carries no data. -/
def netDial (env : Env) (network address : String) : Go (Option GoError) := fun w =>
  let err := env.dial (dialsMade w) network address
  (.returned err, w ++ [.dial network address err])

/-- Go `conn.Close()`, its result discarded as in the source. -/
def connClose : Go Unit := emit .connClose

/-- Go `client.NewClientWithOpts(client.WithVersion(v))`. -/
def NewClientWithOpts (env : Env) (v : String) : Go (Client × Option GoError) := fun w =>
  let err := env.newClient v
  (.returned (⟨v⟩, err), w ++ [.newClient v err])

/-- Go `cli.ImagePull(ctx, ref, opts)`; the returned stream carries no data. -/
def ImagePull (env : Env) (cli : Client) (ref : String) (opts : ImagePullOptions) :
    Go (Option GoError) := fun w =>
  let err := env.imagePull cli ref opts
  (.returned err, w ++ [.imagePull cli ref opts err])

/-- Go `io.Copy(os.Stdout, out)`, the byte count discarded. -/
def ioCopyStdout (env : Env) : Go (Option GoError) := fun w =>
  (.returned env.copyToStdout, w ++ [.copyToStdout env.copyToStdout])

/-- Go `out.Close()`. -/
def outClose (env : Env) : Go (Option GoError) := fun w =>
  (.returned env.closeStream, w ++ [.closeStream env.closeStream])

/-- Go `cli.ContainerCreate(ctx, conf, host, net, name)`. -/
def ContainerCreate (env : Env) (cli : Client) (conf : Config) (host : HostConfig)
    (net : NetworkingConfig) (name : String) :
    Go (ContainerCreateCreatedBody × Option GoError) := fun w =>
  let r := env.containerCreate cli conf host net name
  (.returned r, w ++ [.containerCreate cli conf host net name r.1 r.2])

/-- Go `cli.ContainerStart(ctx, id, opts)`. -/
def ContainerStart (env : Env) (cli : Client) (id : String) (opts : ContainerStartOptions) :
    Go (Option GoError) := fun w =>
  let err := env.containerStart cli id opts
  (.returned err, w ++ [.containerStart cli id opts err])

/-- Go `cli.ContainerRemove(ctx, id, opts)`. -/
def ContainerRemove (env : Env) (cli : Client) (id : String) (opts : ContainerRemoveOptions) :
    Go (Option GoError) := fun w =>
  let err := env.containerRemove cli id opts
  (.returned err, w ++ [.containerRemove cli id opts err])

/-- Go `cli.ContainerInspect(ctx, id)`. -/
def ContainerInspect (env : Env) (cli : Client) (id : String) :
    Go (ContainerJSON × Option GoError) := fun w =>
  let r := env.containerInspect cli id
  (.returned r, w ++ [.containerInspect cli id r.1 r.2])

/-- Go `cli.VolumeList(ctx, filter)`. -/
def VolumeList (env : Env) (cli : Client) (filter : FilterArgs) :
    Go (VolumeListOKBody × Option GoError) := fun w =>
  let r := env.volumeList cli filter
  (.returned r, w ++ [.volumeList cli filter r.1 r.2])

/-- Go `cli.VolumeRemove(ctx, name, force)`. -/
def VolumeRemove (env : Env) (cli : Client) (name : String) (force : Bool) :
    Go (Option GoError) := fun w =>
  let err := env.volumeRemove cli name force
  (.returned err, w ++ [.volumeRemove cli name force err])

/-! ## The source functions -/

/-- Source `failFast`. -/
def failFast (err : Option GoError) : Go Unit :=
  match err with
  | some e => do
    fmtPrintln e
    goPanic e
  | none => pure ()

/-- Source `pullImage`. -/
def pullImage (env : Env) (imageName : String) (cli : Client) : Go Unit := do
  let err ← ImagePull env cli imageName {}
  failFast err
  let err ← ioCopyStdout env
  failFast err
  let err ← outClose env
  failFast err

/-- The `for` loop of source `waitForService`, entered with the current value of
the local `try`. -/
def waitForServiceLoop (env : Env) (tcpPort : String) (try_ : Nat) : Go Unit :=
  if h : try_ > 3 then
    goPanic (errorsNew "gogs http port unreachable")
  else do
    let err ← netDial env "tcp" ("127.0.0.1:" ++ tcpPort)
    let try1 := try_ + 1
    if err ≠ none then
      timeAfter (1 * Second)
      waitForServiceLoop env tcpPort try1
    else
      connClose
termination_by 4 - try_
decreasing_by omega

/-- Source `waitForService`. -/
def waitForService (env : Env) (tcpPort : String) : Go Unit :=
  waitForServiceLoop env tcpPort 0

/-- Source `StartGogs`. -/
def StartGogs (env : Env) (dockerApiVersion : String) : Go String := do
  let (cli, err) ← NewClientWithOpts env dockerApiVersion
  failFast err
  pullImage env "jerdct/dahu-gogs" cli
  let internalSshPort := natNewPort "tcp" "22"
  let internalHttpPort := natNewPort "tcp" "3000"
  let exposedPorts := [internalSshPort, internalHttpPort]
  let containerConf : Config := { Image := "jerdct/dahu-gogs", ExposedPorts := exposedPorts }
  let externalSshPort : PortBinding := { HostIP := "0.0.0.0", HostPort := "10022" }
  let externalHttpPort : PortBinding := { HostIP := "0.0.0.0", HostPort := "10080" }
  let portBindings := [(internalSshPort, [externalSshPort]), (internalHttpPort, [externalHttpPort])]
  let hostConfig : HostConfig := { PortBindings := portBindings }
  let networkConfig : NetworkingConfig := {}
  let (createdContainer, err) ←
    ContainerCreate env cli containerConf hostConfig networkConfig "gogs_for_test"
  failFast err
  let err ← ContainerStart env cli createdContainer.ID {}
  failFast err
  waitForService env "10080"
  return createdContainer.ID

/-- Source `StartDockerRegistry`. -/
def StartDockerRegistry (env : Env) (dockerApiVersion : String) : Go String := do
  let (cli, err) ← NewClientWithOpts env dockerApiVersion
  failFast err
  pullImage env "jerdct/dahu-docker-registry" cli
  let internalPort := natNewPort "tcp" "5000"
  let exposedPorts := [internalPort]
  let containerConf : Config :=
    { Image := "jerdct/dahu-docker-registry", ExposedPorts := exposedPorts }
  let externalPort : PortBinding := { HostIP := "0.0.0.0", HostPort := "5000" }
  let portBindings := [(internalPort, [externalPort])]
  let hostConfig : HostConfig := { PortBindings := portBindings }
  let networkConfig : NetworkingConfig := {}
  let (createdContainer, err) ←
    ContainerCreate env cli containerConf hostConfig networkConfig "docker_registry_for_test"
  failFast err
  let err ← ContainerStart env cli createdContainer.ID {}
  failFast err
  waitForService env "5000"
  return createdContainer.ID

/-- Source `StopContainer`. -/
def StopContainer (env : Env) (id : String) (dockerApiVersion : String) : Go Unit := do
  let (cli, err) ← NewClientWithOpts env dockerApiVersion
  failFast err
  let removeOpt : ContainerRemoveOptions := { Force := true, RemoveVolumes := true }
  let err ← ContainerRemove env cli id removeOpt
  failFast err

/-- Source `FindContainerDetails`. -/
def FindContainerDetails (env : Env) (id : String) (dockerApiVersion : String) :
    Go ContainerDetail := do
  let (cli, err) ← NewClientWithOpts env dockerApiVersion
  failFast err
  let (inspectResult, err) ← ContainerInspect env cli id
  failFast err
  let networkSettings ← deref inspectResult.NetworkSettings
  return { Ip := networkSettings.IPAddress }

/-- The `for ... range volList.Volumes` loop of source `findVolumeByName`, with the
`return nil` that follows it. Each element `volume` is a pointer: `volume.Name`
dereferences it, and `return volume` returns the pointer itself. -/
def findVolumeLoop (volumeName : String) : List (Option Volume) → Go (Option Volume)
  | [] => pure none
  | volume :: rest => do
    let pointee ← deref volume
    if pointee.Name == volumeName then
      return volume
    else
      findVolumeLoop volumeName rest

/-- Source `findVolumeByName`; the `*types.Volume` result is `none` for `nil`. -/
def findVolumeByName (env : Env) (volumeName : String) (dockerApiVersion : String) :
    Go (Option Volume) := do
  let (cli, err1) ← NewClientWithOpts env dockerApiVersion
  failFast err1
  let (volList, err2) ← VolumeList env cli {}
  failFast err2
  findVolumeLoop volumeName volList.Volumes

/-- Source `VolumeExist`. -/
def VolumeExist (env : Env) (volumeName : String) (dockerApiVersion : String) : Go Bool := do
  let r ← findVolumeByName env volumeName dockerApiVersion
  return r != none

/-- Source `CleanVolume`. -/
def CleanVolume (env : Env) (volumeName : String) (dockerApiVersion : String) : Go Unit := do
  let (cli, err1) ← NewClientWithOpts env dockerApiVersion
  failFast err1
  let err2 ← VolumeRemove env cli volumeName true
  failFast err2

/-! ## Observations on logs -/

/-- The outcomes of the `net.Dial` calls of a log, in order. -/
def dialOutcomes : List Event → List (Option GoError)
  | [] => []
  | .dial _ _ err :: t => err :: dialOutcomes t
  | _ :: t => dialOutcomes t

/-- The targets (network, address) of the `net.Dial` calls of a log, in order. -/
def dialTargets : List Event → List (String × String)
  | [] => []
  | .dial network address _ :: t => (network, address) :: dialTargets t
  | _ :: t => dialTargets t

/-- Total duration waited on `time.After` in a log. -/
def slept : List Event → Duration
  | [] => 0
  | .sleep d :: t => d + slept t
  | _ :: t => slept t

/-- The errors printed by `fmt.Println` in a log, in order. -/
def printed : List Event → List GoError
  | [] => []
  | .println e :: t => e :: printed t
  | _ :: t => printed t

/-- The log of `k` consecutive failed polling rounds on `address`, the first being
dial number `n`: each round is the dial followed by the one-second wait. -/
def failedRounds (env : Env) (address : String) (n : Nat) : Nat → List Event
  | 0 => []
  | k + 1 =>
    .dial "tcp" address (env.dial n "tcp" address) :: .sleep Second ::
      failedRounds env address (n + 1) k

/-- The waits on `time.After` of a log, in order. -/
def waits : List Event → List Duration
  | [] => []
  | .sleep d :: t => d :: waits t
  | _ :: t => waits t

/-- How many `net.Dial` calls of a log failed. -/
def failedDials (t : List Event) : Nat := (dialOutcomes t).countP (fun o => o != none)

/-- The request methods of the Docker client. -/
inductive Request where
  | ImagePull | ContainerCreate | ContainerStart | ContainerRemove
  | ContainerInspect | VolumeList | VolumeRemove
  deriving DecidableEq

/-- The request methods issued on the Docker client in a log, in order. Building
the client, reading or closing the pull stream, dialling, waiting and printing
are not requests on the client. -/
def requests : List Event → List Request
  | [] => []
  | .imagePull _ _ _ _ :: t => .ImagePull :: requests t
  | .containerCreate _ _ _ _ _ _ _ :: t => .ContainerCreate :: requests t
  | .containerStart _ _ _ _ :: t => .ContainerStart :: requests t
  | .containerRemove _ _ _ _ :: t => .ContainerRemove :: requests t
  | .containerInspect _ _ _ _ :: t => .ContainerInspect :: requests t
  | .volumeList _ _ _ _ :: t => .VolumeList :: requests t
  | .volumeRemove _ _ _ _ :: t => .VolumeRemove :: requests t
  | _ :: t => requests t

/-- The `ContainerRemove` calls of a log (container id and options), in order. -/
def removals : List Event → List (String × ContainerRemoveOptions)
  | [] => []
  | .containerRemove _ id opts _ :: t => (id, opts) :: removals t
  | _ :: t => removals t

/-- The outcome the oracle gives to dial number `i` (from 0) of a run of
`waitForService tcpPort` started on log `w`. -/
def pollOutcome (env : Env) (tcpPort : String) (w : World) (i : Nat) : Option GoError :=
  env.dial (dialsMade w + i) "tcp" ("127.0.0.1:" ++ tcpPort)

/-- The `container.Config` literal of `StartGogs`. -/
def gogsConfig : Config :=
  { Image := "jerdct/dahu-gogs", ExposedPorts := [⟨"tcp", "22"⟩, ⟨"tcp", "3000"⟩] }

/-- The `container.HostConfig` literal of `StartGogs`. -/
def gogsHostConfig : HostConfig :=
  { PortBindings := [(⟨"tcp", "22"⟩, [⟨"0.0.0.0", "10022"⟩]),
                     (⟨"tcp", "3000"⟩, [⟨"0.0.0.0", "10080"⟩])] }

/-- The `container.Config` literal of `StartDockerRegistry`. -/
def registryConfig : Config :=
  { Image := "jerdct/dahu-docker-registry", ExposedPorts := [⟨"tcp", "5000"⟩] }

/-- The `container.HostConfig` literal of `StartDockerRegistry`. -/
def registryHostConfig : HostConfig :=
  { PortBindings := [(⟨"tcp", "5000"⟩, [⟨"0.0.0.0", "5000"⟩])] }

/-- The log of the six calls `StartGogs` makes before polling, when none fails. -/
def gogsStartedLog (env : Env) (v : String) : List Event :=
  [.newClient v none,
   .imagePull ⟨v⟩ "jerdct/dahu-gogs" {} none,
   .copyToStdout none,
   .closeStream none,
   .containerCreate ⟨v⟩ gogsConfig gogsHostConfig {} "gogs_for_test"
     (env.containerCreate ⟨v⟩ gogsConfig gogsHostConfig {} "gogs_for_test").1 none,
   .containerStart ⟨v⟩
     (env.containerCreate ⟨v⟩ gogsConfig gogsHostConfig {} "gogs_for_test").1.ID {} none]

/-- The log of the six calls `StartDockerRegistry` makes before polling, when none
fails. -/
def registryStartedLog (env : Env) (v : String) : List Event :=
  [.newClient v none,
   .imagePull ⟨v⟩ "jerdct/dahu-docker-registry" {} none,
   .copyToStdout none,
   .closeStream none,
   .containerCreate ⟨v⟩ registryConfig registryHostConfig {} "docker_registry_for_test"
     (env.containerCreate ⟨v⟩ registryConfig registryHostConfig {}
       "docker_registry_for_test").1 none,
   .containerStart ⟨v⟩
     (env.containerCreate ⟨v⟩ registryConfig registryHostConfig {}
       "docker_registry_for_test").1.ID {} none]

/-- A sample error value. -/
def sampleError : GoError := ⟨"connection refused"⟩

/-- A sample environment in which every call succeeds: the created container is
`c1`, its address is `172.17.0.2`, and the volumes are `data`, `cache`, `data`
(the two `data` volumes differing by driver). -/
def envOk : Env where
  newClient _ := none
  imagePull _ _ _ := none
  copyToStdout := none
  closeStream := none
  containerCreate _ _ _ _ _ := ({ ID := "c1" }, none)
  containerStart _ _ _ := none
  containerRemove _ _ _ := none
  containerInspect _ _ := ({ NetworkSettings := some { IPAddress := "172.17.0.2" } }, none)
  volumeList _ _ :=
    ({ Volumes := [some { Name := "data", Driver := "local" }, some { Name := "cache" },
                   some { Name := "data", Driver := "nfs" }] }, none)
  volumeRemove _ _ _ := none
  dial _ _ _ := none

/-- The sample environment, except that the first `n` dials fail. -/
def envDialFails (n : Nat) : Env :=
  { envOk with dial := fun i _ _ => if i < n then some sampleError else none }

/-- The sample environment, except that `ContainerCreate` fails. -/
def envCreateFails : Env :=
  { envOk with containerCreate := fun _ _ _ _ _ => ({ ID := "" }, some sampleError) }

/-- The sample environment, except that `ContainerInspect` fails. -/
def envInspectFails : Env :=
  { envOk with containerInspect := fun _ _ => ({ NetworkSettings := none }, some sampleError) }

/-- The sample environment, except that `ContainerInspect` succeeds with an answer
whose `NetworkSettings` pointer is nil. -/
def envNoSettings : Env :=
  { envOk with containerInspect := fun _ _ => ({ NetworkSettings := none }, none) }

/-- The sample environment, except that the volume list is a nil pointer followed
by the volume `data`. -/
def envNilVolumeFirst : Env :=
  { envOk with
    volumeList := fun _ _ => ({ Volumes := [none, some { Name := "data" }] }, none) }

/-- The sample environment, except that the volume list is the volume `data`
followed by a nil pointer. -/
def envNilVolumeLast : Env :=
  { envOk with
    volumeList := fun _ _ => ({ Volumes := [some { Name := "data" }, none] }, none) }

/-! ## Running computations -/

section Run

variable {α β : Type}

@[simp] theorem run_pure (a : α) (w : World) : (pure a : Go α) w = (.returned a, w) := rfl

@[simp] theorem run_bind (m : Go α) (f : α → Go β) (w : World) :
    (m >>= f) w =
      match m w with
      | (.returned a, w1) => f a w1
      | (.panicked v, w1) => (.panicked v, w1) := rfl

@[simp] theorem run_goPanic (v : GoError) (w : World) :
    (goPanic v : Go α) w = (.panicked v, w) := rfl

@[simp] theorem run_emit (e : Event) (w : World) : emit e w = (.returned (), w ++ [e]) := rfl

@[simp] theorem run_deref_some (a : α) (w : World) : deref (some a) w = (.returned a, w) := rfl

@[simp] theorem run_deref_none (w : World) :
    (deref none : Go α) w = (.panicked nilDereference, w) := rfl

@[simp] theorem run_failFast_none (w : World) : failFast none w = (.returned (), w) := rfl

@[simp] theorem run_failFast_some (e : GoError) (w : World) :
    failFast (some e) w = (.panicked e, w ++ [.println e]) := rfl

end Run

/-! ## Observations distribute over concatenation -/

@[simp] theorem dialsMade_nil : dialsMade [] = 0 := rfl

@[simp] theorem dialsMade_append (s t : List Event) :
    dialsMade (s ++ t) = dialsMade s + dialsMade t := by
  simp [dialsMade, List.countP_append]

@[simp] theorem dialsMade_cons_dial (network address : String) (err : Option GoError)
    (t : List Event) : dialsMade (.dial network address err :: t) = dialsMade t + 1 := by
  simp [dialsMade, Event.isDial]

theorem dialsMade_cons_other (e : Event) (t : List Event) (h : e.isDial = false) :
    dialsMade (e :: t) = dialsMade t := by
  simp [dialsMade, h]

@[simp] theorem dialOutcomes_append (s t : List Event) :
    dialOutcomes (s ++ t) = dialOutcomes s ++ dialOutcomes t := by
  induction s with
  | nil => rfl
  | cons e s ih => cases e <;> simp [dialOutcomes, ih]

@[simp] theorem dialTargets_append (s t : List Event) :
    dialTargets (s ++ t) = dialTargets s ++ dialTargets t := by
  induction s with
  | nil => rfl
  | cons e s ih => cases e <;> simp [dialTargets, ih]

@[simp] theorem slept_append (s t : List Event) : slept (s ++ t) = slept s + slept t := by
  induction s with
  | nil => simp [slept]
  | cons e s ih => cases e <;> simp [slept, ih, Nat.add_assoc]

@[simp] theorem printed_append (s t : List Event) :
    printed (s ++ t) = printed s ++ printed t := by
  induction s with
  | nil => rfl
  | cons e s ih => cases e <;> simp [printed, ih]

/-! ## The polling loop -/

theorem failedRounds_succ_last (env : Env) (address : String) (n k : Nat) :
    failedRounds env address n (k + 1) =
      failedRounds env address n k ++
        [.dial "tcp" address (env.dial (n + k) "tcp" address), .sleep Second] := by
  induction k generalizing n with
  | zero => simp [failedRounds]
  | succ k ih =>
    rw [failedRounds, ih (n + 1)]
    simp [failedRounds, Nat.add_assoc, Nat.add_comm 1 k]

@[simp] theorem dialsMade_failedRounds (env : Env) (address : String) (n k : Nat) :
    dialsMade (failedRounds env address n k) = k := by
  induction k generalizing n with
  | zero => rfl
  | succ k ih =>
    rw [failedRounds, dialsMade_cons_dial, dialsMade_cons_other (.sleep Second) _ rfl, ih]

@[simp] theorem slept_failedRounds (env : Env) (address : String) (n k : Nat) :
    slept (failedRounds env address n k) = k * Second := by
  induction k generalizing n with
  | zero => simp [failedRounds, slept]
  | succ k ih => simp [failedRounds, slept, ih, Nat.succ_mul, Nat.add_comm]

@[simp] theorem dialOutcomes_failedRounds (env : Env) (address : String) (n k : Nat) :
    dialOutcomes (failedRounds env address n k) =
      (List.range k).map (fun i => env.dial (n + i) "tcp" address) := by
  induction k generalizing n with
  | zero => rfl
  | succ k ih =>
    rw [failedRounds_succ_last, dialOutcomes_append, ih, List.range_succ, List.map_append]
    simp [dialOutcomes]

@[simp] theorem dialTargets_failedRounds (env : Env) (address : String) (n k : Nat) :
    dialTargets (failedRounds env address n k) = List.replicate k ("tcp", address) := by
  induction k generalizing n with
  | zero => rfl
  | succ k ih => simp [failedRounds, dialTargets, ih, List.replicate_succ]

/-- The loop gives up once `try` exceeds 3. -/
theorem loop_give_up (env : Env) (tcpPort : String) (try_ : Nat) (w : World) (h : try_ > 3) :
    waitForServiceLoop env tcpPort try_ w =
      (.panicked (errorsNew "gogs http port unreachable"), w) := by
  rw [waitForServiceLoop]
  simp [h]

/-- A successful dial ends the loop after closing the connection. -/
theorem loop_dial_ok (env : Env) (tcpPort : String) (try_ : Nat) (w : World) (h : try_ ≤ 3)
    (hd : env.dial (dialsMade w) "tcp" ("127.0.0.1:" ++ tcpPort) = none) :
    waitForServiceLoop env tcpPort try_ w =
      (.returned (), w ++ [.dial "tcp" ("127.0.0.1:" ++ tcpPort) none, .connClose]) := by
  rw [waitForServiceLoop]
  have h3 : ¬ try_ > 3 := by omega
  simp [h3, netDial, hd, connClose]

/-- A failed dial is followed by a one-second wait and the next iteration. -/
theorem loop_dial_fail (env : Env) (tcpPort : String) (try_ : Nat) (w : World) (h : try_ ≤ 3)
    (hd : env.dial (dialsMade w) "tcp" ("127.0.0.1:" ++ tcpPort) ≠ none) :
    waitForServiceLoop env tcpPort try_ w =
      waitForServiceLoop env tcpPort (try_ + 1)
        (w ++ failedRounds env ("127.0.0.1:" ++ tcpPort) (dialsMade w) 1) := by
  rw [waitForServiceLoop]
  have h3 : ¬ try_ > 3 := by omega
  simp [h3, netDial, hd, timeAfter, failedRounds, Second]

/-- The loop after `k` failed dials in a row. -/
theorem loop_failed_rounds (env : Env) (tcpPort : String) (k : Nat) :
    ∀ (try_ : Nat) (w : World), try_ + k ≤ 4 →
      (∀ j, j < k → env.dial (dialsMade w + j) "tcp" ("127.0.0.1:" ++ tcpPort) ≠ none) →
      waitForServiceLoop env tcpPort try_ w =
        waitForServiceLoop env tcpPort (try_ + k)
          (w ++ failedRounds env ("127.0.0.1:" ++ tcpPort) (dialsMade w) k) := by
  induction k with
  | zero => intro try_ w _ _; simp [failedRounds]
  | succ k ih =>
    intro try_ w hk hfail
    rw [ih try_ w (by omega) (fun j hj => hfail j (by omega))]
    rw [loop_dial_fail env tcpPort (try_ + k) _ (by omega)
      (by simpa using hfail k (by omega))]
    have e1 : failedRounds env ("127.0.0.1:" ++ tcpPort)
        (dialsMade (w ++ failedRounds env ("127.0.0.1:" ++ tcpPort) (dialsMade w) k)) 1 =
        [.dial "tcp" ("127.0.0.1:" ++ tcpPort)
          (env.dial (dialsMade w + k) "tcp" ("127.0.0.1:" ++ tcpPort)), .sleep Second] := by
      simp [failedRounds]
    rw [e1, failedRounds_succ_last env _ _ k, List.append_assoc, Nat.add_assoc]

/-- The run of `waitForService` whose first successful dial is number `k` (from 0). -/
theorem waitForService_first_ok (env : Env) (tcpPort : String) (w : World) (k : Nat)
    (hk : k < 4)
    (hfail : ∀ j, j < k → env.dial (dialsMade w + j) "tcp" ("127.0.0.1:" ++ tcpPort) ≠ none)
    (hok : env.dial (dialsMade w + k) "tcp" ("127.0.0.1:" ++ tcpPort) = none) :
    waitForService env tcpPort w =
      (.returned (), w ++ failedRounds env ("127.0.0.1:" ++ tcpPort) (dialsMade w) k ++
        [.dial "tcp" ("127.0.0.1:" ++ tcpPort) none, .connClose]) := by
  rw [waitForService, loop_failed_rounds env tcpPort k 0 w (by omega) hfail]
  rw [loop_dial_ok env tcpPort (0 + k) _ (by omega) (by simpa using hok)]

/-- The run of `waitForService` when the first four dials all fail. -/
theorem waitForService_all_fail (env : Env) (tcpPort : String) (w : World)
    (hfail : ∀ j, j < 4 → env.dial (dialsMade w + j) "tcp" ("127.0.0.1:" ++ tcpPort) ≠ none) :
    waitForService env tcpPort w =
      (.panicked (errorsNew "gogs http port unreachable"),
        w ++ failedRounds env ("127.0.0.1:" ++ tcpPort) (dialsMade w) 4) := by
  rw [waitForService, loop_failed_rounds env tcpPort 4 0 w (by omega) hfail]
  rw [loop_give_up env tcpPort (0 + 4) _ (by omega)]

/-- Either the first four dials all fail, or there is a first successful one. -/
theorem first_ok_or_all_fail (d : Nat → Option GoError) :
    (∀ j, j < 4 → d j ≠ none) ∨ ∃ k, k < 4 ∧ (∀ j, j < k → d j ≠ none) ∧ d k = none := by
  by_cases h : ∃ k, k < 4 ∧ d k = none
  · right
    refine ⟨Nat.find h, (Nat.find_spec h).1, ?_, (Nat.find_spec h).2⟩
    intro j hj hdj
    exact Nat.find_min h hj ⟨by have := (Nat.find_spec h).1; omega, hdj⟩
  · left
    intro j hj hdj
    exact h ⟨j, hj, hdj⟩

/-! ## The start operations, step by step -/

/-- Run of `pullImage` when the three calls succeed. -/
theorem pullImage_ok (env : Env) (imageName : String) (cli : Client) (w : World)
    (h1 : env.imagePull cli imageName {} = none) (h2 : env.copyToStdout = none)
    (h3 : env.closeStream = none) :
    pullImage env imageName cli w =
      (.returned (), w ++ [.imagePull cli imageName {} none, .copyToStdout none,
        .closeStream none]) := by
  simp [pullImage, ImagePull, ioCopyStdout, outClose, h1, h2, h3]

/-- Run of `StartGogs` up to the polling, when the six calls before it succeed. -/
theorem StartGogs_started (env : Env) (v : String) (w : World)
    (h0 : env.newClient v = none)
    (h1 : env.imagePull ⟨v⟩ "jerdct/dahu-gogs" {} = none)
    (h2 : env.copyToStdout = none) (h3 : env.closeStream = none)
    (h4 : (env.containerCreate ⟨v⟩ gogsConfig gogsHostConfig {} "gogs_for_test").2 = none)
    (h5 : env.containerStart ⟨v⟩
      (env.containerCreate ⟨v⟩ gogsConfig gogsHostConfig {} "gogs_for_test").1.ID {} = none) :
    StartGogs env v w =
      (waitForService env "10080" >>= fun _ =>
        pure (env.containerCreate ⟨v⟩ gogsConfig gogsHostConfig {} "gogs_for_test").1.ID)
        (w ++ gogsStartedLog env v) := by
  have h4a := h4
  have h5a := h5
  simp only [gogsConfig, gogsHostConfig] at h4a h5a
  simp [StartGogs, NewClientWithOpts, pullImage_ok, ContainerCreate, ContainerStart,
    natNewPort, gogsStartedLog, gogsConfig, gogsHostConfig, h0, h1, h2, h3, h4a, h5a]

/-- Run of `StartGogs` when building the client fails. -/
theorem StartGogs_fail_newClient (env : Env) (v : String) (w : World) (e : GoError)
    (h0 : env.newClient v = some e) :
    StartGogs env v w = (.panicked e, w ++ [.newClient v (some e), .println e]) := by
  simp [StartGogs, NewClientWithOpts, pullImage, pullImage_ok, ImagePull, ioCopyStdout, outClose,
    ContainerCreate, ContainerStart, natNewPort, gogsConfig, gogsHostConfig, h0]

/-- Run of `StartGogs` when `ImagePull` fails. -/
theorem StartGogs_fail_imagePull (env : Env) (v : String) (w : World) (e : GoError)
    (h0 : env.newClient v = none)
    (h1 : env.imagePull ⟨v⟩ "jerdct/dahu-gogs" {} = some e) :
    StartGogs env v w =
      (.panicked e, w ++ [.newClient v none, .imagePull ⟨v⟩ "jerdct/dahu-gogs" {} (some e),
        .println e]) := by
  simp [StartGogs, NewClientWithOpts, pullImage, pullImage_ok, ImagePull, ioCopyStdout, outClose,
    ContainerCreate, ContainerStart, natNewPort, gogsConfig, gogsHostConfig, h0, h1]

/-- Run of `StartGogs` when draining the pull stream fails. -/
theorem StartGogs_fail_copy (env : Env) (v : String) (w : World) (e : GoError)
    (h0 : env.newClient v = none)
    (h1 : env.imagePull ⟨v⟩ "jerdct/dahu-gogs" {} = none)
    (h2 : env.copyToStdout = some e) :
    StartGogs env v w =
      (.panicked e, w ++ [.newClient v none, .imagePull ⟨v⟩ "jerdct/dahu-gogs" {} none,
        .copyToStdout (some e), .println e]) := by
  simp [StartGogs, NewClientWithOpts, pullImage, pullImage_ok, ImagePull, ioCopyStdout, outClose,
    ContainerCreate, ContainerStart, natNewPort, gogsConfig, gogsHostConfig, h0, h1, h2]

/-- Run of `StartGogs` when closing the pull stream fails. -/
theorem StartGogs_fail_close (env : Env) (v : String) (w : World) (e : GoError)
    (h0 : env.newClient v = none)
    (h1 : env.imagePull ⟨v⟩ "jerdct/dahu-gogs" {} = none)
    (h2 : env.copyToStdout = none) (h3 : env.closeStream = some e) :
    StartGogs env v w =
      (.panicked e, w ++ [.newClient v none, .imagePull ⟨v⟩ "jerdct/dahu-gogs" {} none,
        .copyToStdout none, .closeStream (some e), .println e]) := by
  simp [StartGogs, NewClientWithOpts, pullImage, pullImage_ok, ImagePull, ioCopyStdout, outClose,
    ContainerCreate, ContainerStart, natNewPort, gogsConfig, gogsHostConfig, h0, h1, h2, h3]

/-- Run of `StartGogs` when `ContainerCreate` fails. -/
theorem StartGogs_fail_create (env : Env) (v : String) (w : World) (e : GoError)
    (h0 : env.newClient v = none)
    (h1 : env.imagePull ⟨v⟩ "jerdct/dahu-gogs" {} = none)
    (h2 : env.copyToStdout = none) (h3 : env.closeStream = none)
    (h4 : (env.containerCreate ⟨v⟩ gogsConfig gogsHostConfig {} "gogs_for_test").2 = some e) :
    StartGogs env v w =
      (.panicked e, w ++ [.newClient v none, .imagePull ⟨v⟩ "jerdct/dahu-gogs" {} none,
        .copyToStdout none, .closeStream none,
        .containerCreate ⟨v⟩ gogsConfig gogsHostConfig {} "gogs_for_test"
          (env.containerCreate ⟨v⟩ gogsConfig gogsHostConfig {} "gogs_for_test").1 (some e),
        .println e]) := by
  have h4a := h4
  simp only [gogsConfig, gogsHostConfig] at h4a
  simp [StartGogs, NewClientWithOpts, pullImage, pullImage_ok, ImagePull, ioCopyStdout, outClose,
    ContainerCreate, ContainerStart, natNewPort, gogsConfig, gogsHostConfig, h0, h1, h2, h3, h4a]

/-- Run of `StartGogs` when `ContainerStart` fails. -/
theorem StartGogs_fail_start (env : Env) (v : String) (w : World) (e : GoError)
    (h0 : env.newClient v = none)
    (h1 : env.imagePull ⟨v⟩ "jerdct/dahu-gogs" {} = none)
    (h2 : env.copyToStdout = none) (h3 : env.closeStream = none)
    (h4 : (env.containerCreate ⟨v⟩ gogsConfig gogsHostConfig {} "gogs_for_test").2 = none)
    (h5 : env.containerStart ⟨v⟩ (env.containerCreate ⟨v⟩ gogsConfig gogsHostConfig {} "gogs_for_test").1.ID {} = some e) :
    StartGogs env v w =
      (.panicked e, w ++ [.newClient v none, .imagePull ⟨v⟩ "jerdct/dahu-gogs" {} none,
        .copyToStdout none, .closeStream none,
        .containerCreate ⟨v⟩ gogsConfig gogsHostConfig {} "gogs_for_test"
          (env.containerCreate ⟨v⟩ gogsConfig gogsHostConfig {} "gogs_for_test").1 none,
        .containerStart ⟨v⟩ (env.containerCreate ⟨v⟩ gogsConfig gogsHostConfig {} "gogs_for_test").1.ID {} (some e),
        .println e]) := by
  have h4a := h4
  have h5a := h5
  simp only [gogsConfig, gogsHostConfig] at h4a h5a
  simp [StartGogs, NewClientWithOpts, pullImage, pullImage_ok, ImagePull, ioCopyStdout, outClose,
    ContainerCreate, ContainerStart, natNewPort, gogsConfig, gogsHostConfig, h0, h1, h2, h3, h4a, h5a]

/-- Run of `StartDockerRegistry` up to the polling, when the six calls before it succeed. -/
theorem StartDockerRegistry_started (env : Env) (v : String) (w : World)
    (h0 : env.newClient v = none)
    (h1 : env.imagePull ⟨v⟩ "jerdct/dahu-docker-registry" {} = none)
    (h2 : env.copyToStdout = none) (h3 : env.closeStream = none)
    (h4 : (env.containerCreate ⟨v⟩ registryConfig registryHostConfig {}
      "docker_registry_for_test").2 = none)
    (h5 : env.containerStart ⟨v⟩
      (env.containerCreate ⟨v⟩ registryConfig registryHostConfig {}
        "docker_registry_for_test").1.ID {} = none) :
    StartDockerRegistry env v w =
      (waitForService env "5000" >>= fun _ =>
        pure (env.containerCreate ⟨v⟩ registryConfig registryHostConfig {}
          "docker_registry_for_test").1.ID)
        (w ++ registryStartedLog env v) := by
  have h4a := h4
  have h5a := h5
  simp only [registryConfig, registryHostConfig] at h4a h5a
  simp [StartDockerRegistry, NewClientWithOpts, pullImage_ok, ContainerCreate, ContainerStart,
    natNewPort, registryStartedLog, registryConfig, registryHostConfig, h0, h1, h2, h3, h4a, h5a]

/-- Run of `StartDockerRegistry` when building the client fails. -/
theorem StartDockerRegistry_fail_newClient (env : Env) (v : String) (w : World) (e : GoError)
    (h0 : env.newClient v = some e) :
    StartDockerRegistry env v w = (.panicked e, w ++ [.newClient v (some e), .println e]) := by
  simp [StartDockerRegistry, NewClientWithOpts, pullImage, pullImage_ok, ImagePull, ioCopyStdout, outClose,
    ContainerCreate, ContainerStart, natNewPort, registryConfig, registryHostConfig, h0]

/-- Run of `StartDockerRegistry` when `ImagePull` fails. -/
theorem StartDockerRegistry_fail_imagePull (env : Env) (v : String) (w : World) (e : GoError)
    (h0 : env.newClient v = none)
    (h1 : env.imagePull ⟨v⟩ "jerdct/dahu-docker-registry" {} = some e) :
    StartDockerRegistry env v w =
      (.panicked e, w ++ [.newClient v none, .imagePull ⟨v⟩ "jerdct/dahu-docker-registry" {} (some e),
        .println e]) := by
  simp [StartDockerRegistry, NewClientWithOpts, pullImage, pullImage_ok, ImagePull, ioCopyStdout, outClose,
    ContainerCreate, ContainerStart, natNewPort, registryConfig, registryHostConfig, h0, h1]

/-- Run of `StartDockerRegistry` when draining the pull stream fails. -/
theorem StartDockerRegistry_fail_copy (env : Env) (v : String) (w : World) (e : GoError)
    (h0 : env.newClient v = none)
    (h1 : env.imagePull ⟨v⟩ "jerdct/dahu-docker-registry" {} = none)
    (h2 : env.copyToStdout = some e) :
    StartDockerRegistry env v w =
      (.panicked e, w ++ [.newClient v none, .imagePull ⟨v⟩ "jerdct/dahu-docker-registry" {} none,
        .copyToStdout (some e), .println e]) := by
  simp [StartDockerRegistry, NewClientWithOpts, pullImage, pullImage_ok, ImagePull, ioCopyStdout, outClose,
    ContainerCreate, ContainerStart, natNewPort, registryConfig, registryHostConfig, h0, h1, h2]

/-- Run of `StartDockerRegistry` when closing the pull stream fails. -/
theorem StartDockerRegistry_fail_close (env : Env) (v : String) (w : World) (e : GoError)
    (h0 : env.newClient v = none)
    (h1 : env.imagePull ⟨v⟩ "jerdct/dahu-docker-registry" {} = none)
    (h2 : env.copyToStdout = none) (h3 : env.closeStream = some e) :
    StartDockerRegistry env v w =
      (.panicked e, w ++ [.newClient v none, .imagePull ⟨v⟩ "jerdct/dahu-docker-registry" {} none,
        .copyToStdout none, .closeStream (some e), .println e]) := by
  simp [StartDockerRegistry, NewClientWithOpts, pullImage, pullImage_ok, ImagePull, ioCopyStdout, outClose,
    ContainerCreate, ContainerStart, natNewPort, registryConfig, registryHostConfig, h0, h1, h2, h3]

/-- Run of `StartDockerRegistry` when `ContainerCreate` fails. -/
theorem StartDockerRegistry_fail_create (env : Env) (v : String) (w : World) (e : GoError)
    (h0 : env.newClient v = none)
    (h1 : env.imagePull ⟨v⟩ "jerdct/dahu-docker-registry" {} = none)
    (h2 : env.copyToStdout = none) (h3 : env.closeStream = none)
    (h4 : (env.containerCreate ⟨v⟩ registryConfig registryHostConfig {} "docker_registry_for_test").2 = some e) :
    StartDockerRegistry env v w =
      (.panicked e, w ++ [.newClient v none, .imagePull ⟨v⟩ "jerdct/dahu-docker-registry" {} none,
        .copyToStdout none, .closeStream none,
        .containerCreate ⟨v⟩ registryConfig registryHostConfig {} "docker_registry_for_test"
          (env.containerCreate ⟨v⟩ registryConfig registryHostConfig {} "docker_registry_for_test").1 (some e),
        .println e]) := by
  have h4a := h4
  simp only [registryConfig, registryHostConfig] at h4a
  simp [StartDockerRegistry, NewClientWithOpts, pullImage, pullImage_ok, ImagePull, ioCopyStdout, outClose,
    ContainerCreate, ContainerStart, natNewPort, registryConfig, registryHostConfig, h0, h1, h2, h3, h4a]

/-- Run of `StartDockerRegistry` when `ContainerStart` fails. -/
theorem StartDockerRegistry_fail_start (env : Env) (v : String) (w : World) (e : GoError)
    (h0 : env.newClient v = none)
    (h1 : env.imagePull ⟨v⟩ "jerdct/dahu-docker-registry" {} = none)
    (h2 : env.copyToStdout = none) (h3 : env.closeStream = none)
    (h4 : (env.containerCreate ⟨v⟩ registryConfig registryHostConfig {} "docker_registry_for_test").2 = none)
    (h5 : env.containerStart ⟨v⟩ (env.containerCreate ⟨v⟩ registryConfig registryHostConfig {} "docker_registry_for_test").1.ID {} = some e) :
    StartDockerRegistry env v w =
      (.panicked e, w ++ [.newClient v none, .imagePull ⟨v⟩ "jerdct/dahu-docker-registry" {} none,
        .copyToStdout none, .closeStream none,
        .containerCreate ⟨v⟩ registryConfig registryHostConfig {} "docker_registry_for_test"
          (env.containerCreate ⟨v⟩ registryConfig registryHostConfig {} "docker_registry_for_test").1 none,
        .containerStart ⟨v⟩ (env.containerCreate ⟨v⟩ registryConfig registryHostConfig {} "docker_registry_for_test").1.ID {} (some e),
        .println e]) := by
  have h4a := h4
  have h5a := h5
  simp only [registryConfig, registryHostConfig] at h4a h5a
  simp [StartDockerRegistry, NewClientWithOpts, pullImage, pullImage_ok, ImagePull, ioCopyStdout, outClose,
    ContainerCreate, ContainerStart, natNewPort, registryConfig, registryHostConfig, h0, h1, h2, h3, h4a, h5a]

/-! ## Further observation lemmas -/

@[simp] theorem waits_append (s t : List Event) : waits (s ++ t) = waits s ++ waits t := by
  induction s with
  | nil => rfl
  | cons e s ih => cases e <;> simp [waits, ih]

@[simp] theorem requests_append (s t : List Event) :
    requests (s ++ t) = requests s ++ requests t := by
  induction s with
  | nil => rfl
  | cons e s ih => cases e <;> simp [requests, ih]

@[simp] theorem waits_failedRounds (env : Env) (address : String) (n k : Nat) :
    waits (failedRounds env address n k) = List.replicate k Second := by
  induction k generalizing n with
  | zero => rfl
  | succ k ih => simp [failedRounds, waits, ih, List.replicate_succ]

@[simp] theorem requests_failedRounds (env : Env) (address : String) (n k : Nat) :
    requests (failedRounds env address n k) = [] := by
  induction k generalizing n with
  | zero => rfl
  | succ k ih => simp [failedRounds, requests, ih]

theorem failedDials_append (s t : List Event) :
    failedDials (s ++ t) = failedDials s + failedDials t := by
  simp [failedDials, List.countP_append]

/-- When the first `k` dials all fail, the `k` failed rounds hold `k` failed dials. -/
theorem failedDials_failedRounds (env : Env) (address : String) (n k : Nat)
    (hfail : ∀ j, j < k → env.dial (n + j) "tcp" address ≠ none) :
    failedDials (failedRounds env address n k) = k := by
  induction k with
  | zero => rfl
  | succ k ih =>
    rw [failedRounds_succ_last, failedDials_append, ih (fun j hj => hfail j (by omega))]
    have hk := hfail k (by omega)
    simp [failedDials, dialOutcomes, hk]

/-! ## The start operations, whole runs -/

@[simp] theorem dialsMade_gogsStartedLog (env : Env) (v : String) :
    dialsMade (gogsStartedLog env v) = 0 := rfl

@[simp] theorem requests_gogsStartedLog (env : Env) (v : String) :
    requests (gogsStartedLog env v) = [.ImagePull, .ContainerCreate, .ContainerStart] := rfl

/-- If `StartGogs` returns, none of the six calls before the polling failed. -/
theorem StartGogs_returned_inv (env : Env) (v : String) (w : World) (s : String)
    (h : (StartGogs env v w).1 = .returned s) :
    env.newClient v = none ∧ env.imagePull ⟨v⟩ "jerdct/dahu-gogs" {} = none ∧
    env.copyToStdout = none ∧ env.closeStream = none ∧
    (env.containerCreate ⟨v⟩ gogsConfig gogsHostConfig {} "gogs_for_test").2 = none ∧
    env.containerStart ⟨v⟩ (env.containerCreate ⟨v⟩ gogsConfig gogsHostConfig {} "gogs_for_test").1.ID {} = none := by
  cases h0 : env.newClient v with
  | some e => rw [StartGogs_fail_newClient env v w e h0] at h; cases h
  | none =>
  cases h1 : env.imagePull ⟨v⟩ "jerdct/dahu-gogs" {} with
  | some e => rw [StartGogs_fail_imagePull env v w e h0 h1] at h; cases h
  | none =>
  cases h2 : env.copyToStdout with
  | some e => rw [StartGogs_fail_copy env v w e h0 h1 h2] at h; cases h
  | none =>
  cases h3 : env.closeStream with
  | some e => rw [StartGogs_fail_close env v w e h0 h1 h2 h3] at h; cases h
  | none =>
  cases h4 : (env.containerCreate ⟨v⟩ gogsConfig gogsHostConfig {} "gogs_for_test").2 with
  | some e => rw [StartGogs_fail_create env v w e h0 h1 h2 h3 h4] at h; cases h
  | none =>
  cases h5 : env.containerStart ⟨v⟩ (env.containerCreate ⟨v⟩ gogsConfig gogsHostConfig {} "gogs_for_test").1.ID {} with
  | some e => rw [StartGogs_fail_start env v w e h0 h1 h2 h3 h4 h5] at h; cases h
  | none => exact ⟨rfl, rfl, rfl, rfl, rfl, rfl⟩

/-- Run of `StartGogs` when the six calls succeed and the first successful dial is number `k`. -/
theorem StartGogs_first_ok (env : Env) (v : String) (w : World) (k : Nat)
    (h0 : env.newClient v = none)
    (h1 : env.imagePull ⟨v⟩ "jerdct/dahu-gogs" {} = none)
    (h2 : env.copyToStdout = none) (h3 : env.closeStream = none)
    (h4 : (env.containerCreate ⟨v⟩ gogsConfig gogsHostConfig {} "gogs_for_test").2 = none)
    (h5 : env.containerStart ⟨v⟩ (env.containerCreate ⟨v⟩ gogsConfig gogsHostConfig {} "gogs_for_test").1.ID {} = none)
    (hk : k < 4) (hfail : ∀ j, j < k → pollOutcome env "10080" w j ≠ none)
    (hok : pollOutcome env "10080" w k = none) :
    StartGogs env v w =
      (.returned (env.containerCreate ⟨v⟩ gogsConfig gogsHostConfig {} "gogs_for_test").1.ID,
        w ++ gogsStartedLog env v ++ failedRounds env "127.0.0.1:10080" (dialsMade w) k ++
          [.dial "tcp" "127.0.0.1:10080" none, .connClose]) := by
  rw [StartGogs_started env v w h0 h1 h2 h3 h4 h5, run_bind,
    waitForService_first_ok env "10080" (w ++ gogsStartedLog env v) k hk
      (by simpa [pollOutcome] using hfail) (by simpa [pollOutcome] using hok)]
  simp

/-- Run of `StartGogs` when the six calls succeed and the first four dials fail. -/
theorem StartGogs_all_fail (env : Env) (v : String) (w : World)
    (h0 : env.newClient v = none)
    (h1 : env.imagePull ⟨v⟩ "jerdct/dahu-gogs" {} = none)
    (h2 : env.copyToStdout = none) (h3 : env.closeStream = none)
    (h4 : (env.containerCreate ⟨v⟩ gogsConfig gogsHostConfig {} "gogs_for_test").2 = none)
    (h5 : env.containerStart ⟨v⟩ (env.containerCreate ⟨v⟩ gogsConfig gogsHostConfig {} "gogs_for_test").1.ID {} = none)
    (hall : ∀ j, j < 4 → pollOutcome env "10080" w j ≠ none) :
    StartGogs env v w =
      (.panicked (errorsNew "gogs http port unreachable"),
        w ++ gogsStartedLog env v ++ failedRounds env "127.0.0.1:10080" (dialsMade w) 4) := by
  rw [StartGogs_started env v w h0 h1 h2 h3 h4 h5, run_bind,
    waitForService_all_fail env "10080" (w ++ gogsStartedLog env v)
      (by simpa [pollOutcome] using hall)]
  simp

@[simp] theorem dialsMade_registryStartedLog (env : Env) (v : String) :
    dialsMade (registryStartedLog env v) = 0 := rfl

@[simp] theorem requests_registryStartedLog (env : Env) (v : String) :
    requests (registryStartedLog env v) = [.ImagePull, .ContainerCreate, .ContainerStart] := rfl

/-- If `StartDockerRegistry` returns, none of the six calls before the polling failed. -/
theorem StartDockerRegistry_returned_inv (env : Env) (v : String) (w : World) (s : String)
    (h : (StartDockerRegistry env v w).1 = .returned s) :
    env.newClient v = none ∧ env.imagePull ⟨v⟩ "jerdct/dahu-docker-registry" {} = none ∧
    env.copyToStdout = none ∧ env.closeStream = none ∧
    (env.containerCreate ⟨v⟩ registryConfig registryHostConfig {} "docker_registry_for_test").2 = none ∧
    env.containerStart ⟨v⟩ (env.containerCreate ⟨v⟩ registryConfig registryHostConfig {} "docker_registry_for_test").1.ID {} = none := by
  cases h0 : env.newClient v with
  | some e => rw [StartDockerRegistry_fail_newClient env v w e h0] at h; cases h
  | none =>
  cases h1 : env.imagePull ⟨v⟩ "jerdct/dahu-docker-registry" {} with
  | some e => rw [StartDockerRegistry_fail_imagePull env v w e h0 h1] at h; cases h
  | none =>
  cases h2 : env.copyToStdout with
  | some e => rw [StartDockerRegistry_fail_copy env v w e h0 h1 h2] at h; cases h
  | none =>
  cases h3 : env.closeStream with
  | some e => rw [StartDockerRegistry_fail_close env v w e h0 h1 h2 h3] at h; cases h
  | none =>
  cases h4 : (env.containerCreate ⟨v⟩ registryConfig registryHostConfig {} "docker_registry_for_test").2 with
  | some e => rw [StartDockerRegistry_fail_create env v w e h0 h1 h2 h3 h4] at h; cases h
  | none =>
  cases h5 : env.containerStart ⟨v⟩ (env.containerCreate ⟨v⟩ registryConfig registryHostConfig {} "docker_registry_for_test").1.ID {} with
  | some e => rw [StartDockerRegistry_fail_start env v w e h0 h1 h2 h3 h4 h5] at h; cases h
  | none => exact ⟨rfl, rfl, rfl, rfl, rfl, rfl⟩

/-- Run of `StartDockerRegistry` when the six calls succeed and the first successful dial is number `k`. -/
theorem StartDockerRegistry_first_ok (env : Env) (v : String) (w : World) (k : Nat)
    (h0 : env.newClient v = none)
    (h1 : env.imagePull ⟨v⟩ "jerdct/dahu-docker-registry" {} = none)
    (h2 : env.copyToStdout = none) (h3 : env.closeStream = none)
    (h4 : (env.containerCreate ⟨v⟩ registryConfig registryHostConfig {} "docker_registry_for_test").2 = none)
    (h5 : env.containerStart ⟨v⟩ (env.containerCreate ⟨v⟩ registryConfig registryHostConfig {} "docker_registry_for_test").1.ID {} = none)
    (hk : k < 4) (hfail : ∀ j, j < k → pollOutcome env "5000" w j ≠ none)
    (hok : pollOutcome env "5000" w k = none) :
    StartDockerRegistry env v w =
      (.returned (env.containerCreate ⟨v⟩ registryConfig registryHostConfig {} "docker_registry_for_test").1.ID,
        w ++ registryStartedLog env v ++ failedRounds env "127.0.0.1:5000" (dialsMade w) k ++
          [.dial "tcp" "127.0.0.1:5000" none, .connClose]) := by
  rw [StartDockerRegistry_started env v w h0 h1 h2 h3 h4 h5, run_bind,
    waitForService_first_ok env "5000" (w ++ registryStartedLog env v) k hk
      (by simpa [pollOutcome] using hfail) (by simpa [pollOutcome] using hok)]
  simp

/-- Run of `StartDockerRegistry` when the six calls succeed and the first four dials fail. -/
theorem StartDockerRegistry_all_fail (env : Env) (v : String) (w : World)
    (h0 : env.newClient v = none)
    (h1 : env.imagePull ⟨v⟩ "jerdct/dahu-docker-registry" {} = none)
    (h2 : env.copyToStdout = none) (h3 : env.closeStream = none)
    (h4 : (env.containerCreate ⟨v⟩ registryConfig registryHostConfig {} "docker_registry_for_test").2 = none)
    (h5 : env.containerStart ⟨v⟩ (env.containerCreate ⟨v⟩ registryConfig registryHostConfig {} "docker_registry_for_test").1.ID {} = none)
    (hall : ∀ j, j < 4 → pollOutcome env "5000" w j ≠ none) :
    StartDockerRegistry env v w =
      (.panicked (errorsNew "gogs http port unreachable"),
        w ++ registryStartedLog env v ++ failedRounds env "127.0.0.1:5000" (dialsMade w) 4) := by
  rw [StartDockerRegistry_started env v w h0 h1 h2 h3 h4 h5, run_bind,
    waitForService_all_fail env "5000" (w ++ registryStartedLog env v)
      (by simpa [pollOutcome] using hall)]
  simp

/-! ## Claims about `waitForService` and `failFast` -/

/-- C1: `waitForService` has a budget of 4 dials. With `pollOutcome env tcpPort w i`
the outcome of its dial number `i` (from 0): it returns normally exactly when one of
the first 4 dials succeeds, and panics exactly when the first 4 all fail; when the
first success is dial number `k < 4` it makes `k + 1` dials, these being the `k`
failures followed by the success, and when the first 4 fail it makes exactly those 4. -/
theorem waitForService_dial_budget (env : Env) (tcpPort : String) (w : World) :
    ((waitForService env tcpPort w).1 = .returned () ↔
        ∃ i, i < 4 ∧ pollOutcome env tcpPort w i = none) ∧
    ((waitForService env tcpPort w).1.isPanic = true ↔
        ∀ i, i < 4 → pollOutcome env tcpPort w i ≠ none) ∧
    (∀ k, k < 4 → (∀ j, j < k → pollOutcome env tcpPort w j ≠ none) →
        pollOutcome env tcpPort w k = none →
        dialsMade (waitForService env tcpPort w).2 = dialsMade w + (k + 1) ∧
        dialOutcomes (waitForService env tcpPort w).2 =
          dialOutcomes w ++ (List.range (k + 1)).map (pollOutcome env tcpPort w)) ∧
    ((∀ i, i < 4 → pollOutcome env tcpPort w i ≠ none) →
        dialsMade (waitForService env tcpPort w).2 = dialsMade w + 4 ∧
        dialOutcomes (waitForService env tcpPort w).2 =
          dialOutcomes w ++ (List.range 4).map (pollOutcome env tcpPort w)) := by
  refine ⟨?_, ?_, ?_, ?_⟩
  · rcases first_ok_or_all_fail (pollOutcome env tcpPort w) with hall | ⟨k, hk, hfail, hok⟩
    · rw [waitForService_all_fail env tcpPort w hall]
      constructor
      · intro h; cases h
      · rintro ⟨i, hi, hd⟩; exact absurd hd (hall i hi)
    · rw [waitForService_first_ok env tcpPort w k hk hfail hok]
      exact ⟨fun _ => ⟨k, hk, hok⟩, fun _ => rfl⟩
  · rcases first_ok_or_all_fail (pollOutcome env tcpPort w) with hall | ⟨k, hk, hfail, hok⟩
    · rw [waitForService_all_fail env tcpPort w hall]
      exact ⟨fun _ => hall, fun _ => rfl⟩
    · rw [waitForService_first_ok env tcpPort w k hk hfail hok]
      constructor
      · intro h; cases h
      · intro hall; exact absurd hok (hall k hk)
  · intro k hk hfail hok
    rw [waitForService_first_ok env tcpPort w k hk hfail hok]
    constructor
    · simp [dialsMade_cons_other, Event.isDial, Nat.add_assoc]
    · have hok1 : env.dial (dialsMade w + k) "tcp" ("127.0.0.1:" ++ tcpPort) = none := hok
      simp [dialOutcomes, List.range_succ, pollOutcome, hok1]
  · intro hall
    rw [waitForService_all_fail env tcpPort w hall]
    constructor
    · simp
    · simp [pollOutcome]

/-- C2: `failFast` prints and panics exactly on a non-nil error: it panics iff `err`
is non-nil; on a non-nil `err` it prints `err` once, adds nothing else to the log,
and panics with `err` itself; on `nil` it returns and leaves the log untouched. -/
theorem failFast_print_and_panic (err : Option GoError) (w : World) :
    ((failFast err w).1.isPanic = true ↔ err ≠ none) ∧
    (∀ e, err = some e →
        failFast err w = (.panicked e, w ++ [.println e]) ∧
        printed (failFast err w).2 = printed w ++ [e]) ∧
    (err = none →
        failFast err w = (.returned (), w) ∧ printed (failFast err w).2 = printed w) := by
  cases err with
  | none => simp [Outcome.isPanic]
  | some e => simp [Outcome.isPanic, printed]

/-- C9: `waitForService` has no backoff. Every wait it makes is `1 * time.Second`;
the time slept is one second per failed dial performed; it is `k` seconds when the
first success is dial number `k` from 0 (the `(k+1)`-th dial), and 4 seconds when
the first 4 dials fail, in which case the log ends with the 4th failed dial
followed by the last wait, and the call panics. -/
theorem waitForService_no_backoff (env : Env) (tcpPort : String) (w : World) :
    (∃ n, waits (waitForService env tcpPort w).2 = waits w ++ List.replicate n Second) ∧
    (slept (waitForService env tcpPort w).2 + failedDials w * Second =
        slept w + failedDials (waitForService env tcpPort w).2 * Second) ∧
    (∀ k, k < 4 → (∀ j, j < k → pollOutcome env tcpPort w j ≠ none) →
        pollOutcome env tcpPort w k = none →
        slept (waitForService env tcpPort w).2 = slept w + k * Second ∧
        waits (waitForService env tcpPort w).2 = waits w ++ List.replicate k Second) ∧
    ((∀ i, i < 4 → pollOutcome env tcpPort w i ≠ none) →
        slept (waitForService env tcpPort w).2 = slept w + 4 * Second ∧
        waits (waitForService env tcpPort w).2 = waits w ++ List.replicate 4 Second ∧
        (waitForService env tcpPort w).1.isPanic = true ∧
        ∃ pre e, (waitForService env tcpPort w).2 =
          pre ++ [.dial "tcp" ("127.0.0.1:" ++ tcpPort) (some e), .sleep (1 * Second)] ∧
          dialsMade pre = dialsMade w + 3) := by
  have hA : ∀ k, k < 4 → (∀ j, j < k → pollOutcome env tcpPort w j ≠ none) →
      pollOutcome env tcpPort w k = none →
      slept (waitForService env tcpPort w).2 = slept w + k * Second ∧
      waits (waitForService env tcpPort w).2 = waits w ++ List.replicate k Second ∧
      failedDials (waitForService env tcpPort w).2 = failedDials w + k := by
    intro k hk hfail hok
    rw [waitForService_first_ok env tcpPort w k hk hfail hok]
    refine ⟨by simp [slept], by simp [waits], ?_⟩
    rw [failedDials_append, failedDials_append, failedDials_failedRounds _ _ _ _ hfail]
    simp [failedDials, dialOutcomes]
  have hB : (∀ i, i < 4 → pollOutcome env tcpPort w i ≠ none) →
      slept (waitForService env tcpPort w).2 = slept w + 4 * Second ∧
      waits (waitForService env tcpPort w).2 = waits w ++ List.replicate 4 Second ∧
      failedDials (waitForService env tcpPort w).2 = failedDials w + 4 := by
    intro hall
    rw [waitForService_all_fail env tcpPort w hall]
    refine ⟨by simp, by simp, ?_⟩
    rw [failedDials_append, failedDials_failedRounds _ _ _ _ hall]
  refine ⟨?_, ?_, fun k hk hfail hok => ⟨(hA k hk hfail hok).1, (hA k hk hfail hok).2.1⟩, ?_⟩
  · rcases first_ok_or_all_fail (pollOutcome env tcpPort w) with hall | ⟨k, hk, hfail, hok⟩
    · exact ⟨4, (hB hall).2.1⟩
    · exact ⟨k, (hA k hk hfail hok).2.1⟩
  · rcases first_ok_or_all_fail (pollOutcome env tcpPort w) with hall | ⟨k, hk, hfail, hok⟩
    · rw [(hB hall).1, (hB hall).2.2]; ring
    · rw [(hA k hk hfail hok).1, (hA k hk hfail hok).2.2]; ring
  · intro hall
    refine ⟨(hB hall).1, (hB hall).2.1, ?_, ?_⟩
    · rw [waitForService_all_fail env tcpPort w hall]; rfl
    · rw [waitForService_all_fail env tcpPort w hall]
      obtain ⟨e, he⟩ := Option.ne_none_iff_exists'.mp (hall 3 (by omega))
      refine ⟨w ++ failedRounds env ("127.0.0.1:" ++ tcpPort) (dialsMade w) 3, e, ?_, by simp⟩
      have he1 : env.dial (dialsMade w + 3) "tcp" ("127.0.0.1:" ++ tcpPort) = some e := he
      rw [failedRounds_succ_last, he1]
      simp

/-- C10: when `waitForService` gives up, the panic value is the error with the fixed
text "gogs http port unreachable", whatever the port; it does give up when the first
4 dials fail, also on port "5000", and `StartDockerRegistry` then panics with that
same value; every dial of a run targets `tcp` address `127.0.0.1:<tcpPort>`. -/
theorem waitForService_gives_up_message (env : Env) (tcpPort : String) (w : World) :
    (∀ v, (waitForService env tcpPort w).1 = .panicked v →
        v = errorsNew "gogs http port unreachable" ∧ v.msg = "gogs http port unreachable") ∧
    ((∀ i, i < 4 → pollOutcome env tcpPort w i ≠ none) →
        (waitForService env tcpPort w).1 =
          .panicked (errorsNew "gogs http port unreachable")) ∧
    ((∀ i, i < 4 → pollOutcome env "5000" w i ≠ none) →
        (waitForService env "5000" w).1 = .panicked ⟨"gogs http port unreachable"⟩) ∧
    (∀ v, env.newClient v = none →
        env.imagePull ⟨v⟩ "jerdct/dahu-docker-registry" {} = none →
        env.copyToStdout = none → env.closeStream = none →
        (env.containerCreate ⟨v⟩ registryConfig registryHostConfig {}
          "docker_registry_for_test").2 = none →
        env.containerStart ⟨v⟩ (env.containerCreate ⟨v⟩ registryConfig registryHostConfig {}
          "docker_registry_for_test").1.ID {} = none →
        (∀ i, i < 4 → pollOutcome env "5000" w i ≠ none) →
        (StartDockerRegistry env v w).1 = .panicked ⟨"gogs http port unreachable"⟩ ∧
        dialTargets (StartDockerRegistry env v w).2 =
          dialTargets w ++ List.replicate 4 ("tcp", "127.0.0.1:5000")) ∧
    (∃ n, dialTargets (waitForService env tcpPort w).2 =
        dialTargets w ++ List.replicate n ("tcp", "127.0.0.1:" ++ tcpPort)) := by
  refine ⟨?_, ?_, ?_, ?_, ?_⟩
  · intro v hv
    rcases first_ok_or_all_fail (pollOutcome env tcpPort w) with hall | ⟨k, hk, hfail, hok⟩
    · rw [waitForService_all_fail env tcpPort w hall] at hv
      cases hv
      exact ⟨rfl, rfl⟩
    · rw [waitForService_first_ok env tcpPort w k hk hfail hok] at hv
      cases hv
  · intro hall
    rw [waitForService_all_fail env tcpPort w hall]
  · intro hall
    rw [waitForService_all_fail env "5000" w hall]
    rfl
  · intro v h0 h1 h2 h3 h4 h5 hall
    rw [StartDockerRegistry_all_fail env v w h0 h1 h2 h3 h4 h5 hall]
    exact ⟨rfl, by simp [registryStartedLog, dialTargets]⟩
  · rcases first_ok_or_all_fail (pollOutcome env tcpPort w) with hall | ⟨k, hk, hfail, hok⟩
    · rw [waitForService_all_fail env tcpPort w hall]
      exact ⟨4, by simp⟩
    · rw [waitForService_first_ok env tcpPort w k hk hfail hok]
      refine ⟨k + 1, ?_⟩
      simp [dialTargets, List.replicate_succ', List.append_assoc]

/-! ## Claims about the start operations -/

/-- C3: if `StartGogs` returns normally, its log is the six calls before the polling,
all answered without error and ending with `ContainerStart`, then polling rounds
that issue no request, then a successful dial of `127.0.0.1:10080`; and the string
returned is the `ID` of the body answered by the one `ContainerCreate` call. The
same holds of `StartDockerRegistry` with address `127.0.0.1:5000`. -/
theorem start_returns_after_port_reached (env : Env) (v : String) (w : World) (s : String) :
    ((StartGogs env v w).1 = .returned s →
      ∃ body t,
        (StartGogs env v w).2 =
          w ++ [.newClient v none, .imagePull ⟨v⟩ "jerdct/dahu-gogs" {} none,
                .copyToStdout none, .closeStream none,
                .containerCreate ⟨v⟩ gogsConfig gogsHostConfig {} "gogs_for_test" body none,
                .containerStart ⟨v⟩ body.ID {} none] ++ t ++
            [.dial "tcp" "127.0.0.1:10080" none, .connClose] ∧
        requests t = [] ∧ s = body.ID) ∧
    ((StartDockerRegistry env v w).1 = .returned s →
      ∃ body t,
        (StartDockerRegistry env v w).2 =
          w ++ [.newClient v none, .imagePull ⟨v⟩ "jerdct/dahu-docker-registry" {} none,
                .copyToStdout none, .closeStream none,
                .containerCreate ⟨v⟩ registryConfig registryHostConfig {} "docker_registry_for_test" body none,
                .containerStart ⟨v⟩ body.ID {} none] ++ t ++
            [.dial "tcp" "127.0.0.1:5000" none, .connClose] ∧
        requests t = [] ∧ s = body.ID) := by
  refine ⟨?_, ?_⟩
  · intro h
    obtain ⟨h0, h1, h2, h3, h4, h5⟩ := StartGogs_returned_inv env v w s h
    rcases first_ok_or_all_fail (pollOutcome env "10080" w) with hall | ⟨k, hk, hfail, hok⟩
    · rw [StartGogs_all_fail env v w h0 h1 h2 h3 h4 h5 hall] at h
      cases h
    · rw [StartGogs_first_ok env v w k h0 h1 h2 h3 h4 h5 hk hfail hok] at h ⊢
      refine ⟨(env.containerCreate ⟨v⟩ gogsConfig gogsHostConfig {} "gogs_for_test").1,
        failedRounds env "127.0.0.1:10080" (dialsMade w) k, ?_, by simp, ?_⟩
      · simp [gogsStartedLog]
      · injection h with h
        exact h.symm
  · intro h
    obtain ⟨h0, h1, h2, h3, h4, h5⟩ := StartDockerRegistry_returned_inv env v w s h
    rcases first_ok_or_all_fail (pollOutcome env "5000" w) with hall | ⟨k, hk, hfail, hok⟩
    · rw [StartDockerRegistry_all_fail env v w h0 h1 h2 h3 h4 h5 hall] at h
      cases h
    · rw [StartDockerRegistry_first_ok env v w k h0 h1 h2 h3 h4 h5 hk hfail hok] at h ⊢
      refine ⟨(env.containerCreate ⟨v⟩ registryConfig registryHostConfig {} "docker_registry_for_test").1,
        failedRounds env "127.0.0.1:5000" (dialsMade w) k, ?_, by simp, ?_⟩
      · simp [registryStartedLog]
      · injection h with h
        exact h.symm

/-- C4: `StartGogs` and `StartDockerRegistry` call, in this order, client
construction, `ImagePull`, the draining and the closing of the pull stream,
`ContainerCreate`, `ContainerStart`, and then poll the port. The first of the six
calls to answer an error `e` ends the operation: `e` is printed, the panic value is
`e`, and the log holds the calls up to the failing one and no later one (so no
`ContainerStart` after a failed `ContainerCreate`, and no dial after a failed
`ContainerStart`). When none fails, the six calls are followed by the first dial. -/
theorem start_stops_at_first_failure (env : Env) (v : String) (w : World) :
    (∀ e,
      env.newClient v = some e →
        StartGogs env v w =
          (.panicked e, w ++
          [.newClient v (some e),
           .println e])) ∧
    (∀ e,
      env.newClient v = none →
      env.imagePull ⟨v⟩ "jerdct/dahu-gogs" {} = some e →
        StartGogs env v w =
          (.panicked e, w ++
          [.newClient v none,
           .imagePull ⟨v⟩ "jerdct/dahu-gogs" {} (some e),
           .println e])) ∧
    (∀ e,
      env.newClient v = none →
      env.imagePull ⟨v⟩ "jerdct/dahu-gogs" {} = none →
      env.copyToStdout = some e →
        StartGogs env v w =
          (.panicked e, w ++
          [.newClient v none,
           .imagePull ⟨v⟩ "jerdct/dahu-gogs" {} none,
           .copyToStdout (some e),
           .println e])) ∧
    (∀ e,
      env.newClient v = none →
      env.imagePull ⟨v⟩ "jerdct/dahu-gogs" {} = none →
      env.copyToStdout = none →
      env.closeStream = some e →
        StartGogs env v w =
          (.panicked e, w ++
          [.newClient v none,
           .imagePull ⟨v⟩ "jerdct/dahu-gogs" {} none,
           .copyToStdout none,
           .closeStream (some e),
           .println e])) ∧
    (∀ e,
      env.newClient v = none →
      env.imagePull ⟨v⟩ "jerdct/dahu-gogs" {} = none →
      env.copyToStdout = none →
      env.closeStream = none →
      (env.containerCreate ⟨v⟩ gogsConfig gogsHostConfig {} "gogs_for_test").2 = some e →
        StartGogs env v w =
          (.panicked e, w ++
          [.newClient v none,
           .imagePull ⟨v⟩ "jerdct/dahu-gogs" {} none,
           .copyToStdout none,
           .closeStream none,
           .containerCreate ⟨v⟩ gogsConfig gogsHostConfig {} "gogs_for_test"
            (env.containerCreate ⟨v⟩ gogsConfig gogsHostConfig {} "gogs_for_test").1 (some e),
           .println e])) ∧
    (∀ e,
      env.newClient v = none →
      env.imagePull ⟨v⟩ "jerdct/dahu-gogs" {} = none →
      env.copyToStdout = none →
      env.closeStream = none →
      (env.containerCreate ⟨v⟩ gogsConfig gogsHostConfig {} "gogs_for_test").2 = none →
      env.containerStart ⟨v⟩ (env.containerCreate ⟨v⟩ gogsConfig gogsHostConfig {} "gogs_for_test").1.ID {} = some e →
        StartGogs env v w =
          (.panicked e, w ++
          [.newClient v none,
           .imagePull ⟨v⟩ "jerdct/dahu-gogs" {} none,
           .copyToStdout none,
           .closeStream none,
           .containerCreate ⟨v⟩ gogsConfig gogsHostConfig {} "gogs_for_test"
            (env.containerCreate ⟨v⟩ gogsConfig gogsHostConfig {} "gogs_for_test").1 none,
           .containerStart ⟨v⟩ (env.containerCreate ⟨v⟩ gogsConfig gogsHostConfig {} "gogs_for_test").1.ID {} (some e),
           .println e])) ∧
    (env.newClient v = none →
      env.imagePull ⟨v⟩ "jerdct/dahu-gogs" {} = none →
      env.copyToStdout = none →
      env.closeStream = none →
      (env.containerCreate ⟨v⟩ gogsConfig gogsHostConfig {} "gogs_for_test").2 = none →
      env.containerStart ⟨v⟩ (env.containerCreate ⟨v⟩ gogsConfig gogsHostConfig {} "gogs_for_test").1.ID {} = none →
        ∃ t, (StartGogs env v w).2 =
          w ++
          [.newClient v none,
           .imagePull ⟨v⟩ "jerdct/dahu-gogs" {} none,
           .copyToStdout none,
           .closeStream none,
           .containerCreate ⟨v⟩ gogsConfig gogsHostConfig {} "gogs_for_test"
            (env.containerCreate ⟨v⟩ gogsConfig gogsHostConfig {} "gogs_for_test").1 none,
           .containerStart ⟨v⟩ (env.containerCreate ⟨v⟩ gogsConfig gogsHostConfig {} "gogs_for_test").1.ID {} none] ++
            .dial "tcp" "127.0.0.1:10080" (pollOutcome env "10080" w 0) :: t ∧
          requests t = []) ∧
    (∀ e,
      env.newClient v = some e →
        StartDockerRegistry env v w =
          (.panicked e, w ++
          [.newClient v (some e),
           .println e])) ∧
    (∀ e,
      env.newClient v = none →
      env.imagePull ⟨v⟩ "jerdct/dahu-docker-registry" {} = some e →
        StartDockerRegistry env v w =
          (.panicked e, w ++
          [.newClient v none,
           .imagePull ⟨v⟩ "jerdct/dahu-docker-registry" {} (some e),
           .println e])) ∧
    (∀ e,
      env.newClient v = none →
      env.imagePull ⟨v⟩ "jerdct/dahu-docker-registry" {} = none →
      env.copyToStdout = some e →
        StartDockerRegistry env v w =
          (.panicked e, w ++
          [.newClient v none,
           .imagePull ⟨v⟩ "jerdct/dahu-docker-registry" {} none,
           .copyToStdout (some e),
           .println e])) ∧
    (∀ e,
      env.newClient v = none →
      env.imagePull ⟨v⟩ "jerdct/dahu-docker-registry" {} = none →
      env.copyToStdout = none →
      env.closeStream = some e →
        StartDockerRegistry env v w =
          (.panicked e, w ++
          [.newClient v none,
           .imagePull ⟨v⟩ "jerdct/dahu-docker-registry" {} none,
           .copyToStdout none,
           .closeStream (some e),
           .println e])) ∧
    (∀ e,
      env.newClient v = none →
      env.imagePull ⟨v⟩ "jerdct/dahu-docker-registry" {} = none →
      env.copyToStdout = none →
      env.closeStream = none →
      (env.containerCreate ⟨v⟩ registryConfig registryHostConfig {} "docker_registry_for_test").2 = some e →
        StartDockerRegistry env v w =
          (.panicked e, w ++
          [.newClient v none,
           .imagePull ⟨v⟩ "jerdct/dahu-docker-registry" {} none,
           .copyToStdout none,
           .closeStream none,
           .containerCreate ⟨v⟩ registryConfig registryHostConfig {} "docker_registry_for_test"
            (env.containerCreate ⟨v⟩ registryConfig registryHostConfig {} "docker_registry_for_test").1 (some e),
           .println e])) ∧
    (∀ e,
      env.newClient v = none →
      env.imagePull ⟨v⟩ "jerdct/dahu-docker-registry" {} = none →
      env.copyToStdout = none →
      env.closeStream = none →
      (env.containerCreate ⟨v⟩ registryConfig registryHostConfig {} "docker_registry_for_test").2 = none →
      env.containerStart ⟨v⟩ (env.containerCreate ⟨v⟩ registryConfig registryHostConfig {} "docker_registry_for_test").1.ID {} = some e →
        StartDockerRegistry env v w =
          (.panicked e, w ++
          [.newClient v none,
           .imagePull ⟨v⟩ "jerdct/dahu-docker-registry" {} none,
           .copyToStdout none,
           .closeStream none,
           .containerCreate ⟨v⟩ registryConfig registryHostConfig {} "docker_registry_for_test"
            (env.containerCreate ⟨v⟩ registryConfig registryHostConfig {} "docker_registry_for_test").1 none,
           .containerStart ⟨v⟩ (env.containerCreate ⟨v⟩ registryConfig registryHostConfig {} "docker_registry_for_test").1.ID {} (some e),
           .println e])) ∧
    (env.newClient v = none →
      env.imagePull ⟨v⟩ "jerdct/dahu-docker-registry" {} = none →
      env.copyToStdout = none →
      env.closeStream = none →
      (env.containerCreate ⟨v⟩ registryConfig registryHostConfig {} "docker_registry_for_test").2 = none →
      env.containerStart ⟨v⟩ (env.containerCreate ⟨v⟩ registryConfig registryHostConfig {} "docker_registry_for_test").1.ID {} = none →
        ∃ t, (StartDockerRegistry env v w).2 =
          w ++
          [.newClient v none,
           .imagePull ⟨v⟩ "jerdct/dahu-docker-registry" {} none,
           .copyToStdout none,
           .closeStream none,
           .containerCreate ⟨v⟩ registryConfig registryHostConfig {} "docker_registry_for_test"
            (env.containerCreate ⟨v⟩ registryConfig registryHostConfig {} "docker_registry_for_test").1 none,
           .containerStart ⟨v⟩ (env.containerCreate ⟨v⟩ registryConfig registryHostConfig {} "docker_registry_for_test").1.ID {} none] ++
            .dial "tcp" "127.0.0.1:5000" (pollOutcome env "5000" w 0) :: t ∧
          requests t = []) := by
  refine ⟨?_, ?_, ?_, ?_, ?_, ?_, ?_, ?_, ?_, ?_, ?_, ?_, ?_, ?_⟩
  · intro e h0
    exact StartGogs_fail_newClient env v w e h0
  · intro e h0 h1
    exact StartGogs_fail_imagePull env v w e h0 h1
  · intro e h0 h1 h2
    exact StartGogs_fail_copy env v w e h0 h1 h2
  · intro e h0 h1 h2 h3
    exact StartGogs_fail_close env v w e h0 h1 h2 h3
  · intro e h0 h1 h2 h3 h4
    exact StartGogs_fail_create env v w e h0 h1 h2 h3 h4
  · intro e h0 h1 h2 h3 h4 h5
    exact StartGogs_fail_start env v w e h0 h1 h2 h3 h4 h5
  · intro h0 h1 h2 h3 h4 h5
    rcases first_ok_or_all_fail (pollOutcome env "10080" w) with hall | ⟨k, hk, hfail, hok⟩
    · rw [StartGogs_all_fail env v w h0 h1 h2 h3 h4 h5 hall]
      exact ⟨.sleep Second :: failedRounds env "127.0.0.1:10080" (dialsMade w + 1) 3,
        by simp [gogsStartedLog, failedRounds, pollOutcome], by simp [requests]⟩
    · rw [StartGogs_first_ok env v w k h0 h1 h2 h3 h4 h5 hk hfail hok]
      cases k with
      | zero =>
        exact ⟨[.connClose], by simp [gogsStartedLog, failedRounds, hok], by simp [requests]⟩
      | succ k =>
        exact ⟨.sleep Second :: failedRounds env "127.0.0.1:10080" (dialsMade w + 1) k ++
            [.dial "tcp" "127.0.0.1:10080" none, .connClose],
          by simp [gogsStartedLog, failedRounds, pollOutcome], by simp [requests]⟩
  · intro e h0
    exact StartDockerRegistry_fail_newClient env v w e h0
  · intro e h0 h1
    exact StartDockerRegistry_fail_imagePull env v w e h0 h1
  · intro e h0 h1 h2
    exact StartDockerRegistry_fail_copy env v w e h0 h1 h2
  · intro e h0 h1 h2 h3
    exact StartDockerRegistry_fail_close env v w e h0 h1 h2 h3
  · intro e h0 h1 h2 h3 h4
    exact StartDockerRegistry_fail_create env v w e h0 h1 h2 h3 h4
  · intro e h0 h1 h2 h3 h4 h5
    exact StartDockerRegistry_fail_start env v w e h0 h1 h2 h3 h4 h5
  · intro h0 h1 h2 h3 h4 h5
    rcases first_ok_or_all_fail (pollOutcome env "5000" w) with hall | ⟨k, hk, hfail, hok⟩
    · rw [StartDockerRegistry_all_fail env v w h0 h1 h2 h3 h4 h5 hall]
      exact ⟨.sleep Second :: failedRounds env "127.0.0.1:5000" (dialsMade w + 1) 3,
        by simp [registryStartedLog, failedRounds, pollOutcome], by simp [requests]⟩
    · rw [StartDockerRegistry_first_ok env v w k h0 h1 h2 h3 h4 h5 hk hfail hok]
      cases k with
      | zero =>
        exact ⟨[.connClose], by simp [registryStartedLog, failedRounds, hok], by simp [requests]⟩
      | succ k =>
        exact ⟨.sleep Second :: failedRounds env "127.0.0.1:5000" (dialsMade w + 1) k ++
            [.dial "tcp" "127.0.0.1:5000" none, .connClose],
          by simp [registryStartedLog, failedRounds, pollOutcome], by simp [requests]⟩

/-! ## The other operations -/

@[simp] theorem removals_append (s t : List Event) :
    removals (s ++ t) = removals s ++ removals t := by
  induction s with
  | nil => rfl
  | cons e s ih => cases e <;> simp [removals, ih]

/-- The loop of `findVolumeByName` makes no external call. -/
theorem findVolumeLoop_log (volumeName : String) (vols : List (Option Volume)) (w : World) :
    (findVolumeLoop volumeName vols w).2 = w := by
  induction vols with
  | nil => rfl
  | cons a rest ih =>
    cases a with
    | none => simp [findVolumeLoop]
    | some x =>
      by_cases hx : x.Name = volumeName
      · simp [findVolumeLoop, hx]
      · simp [findVolumeLoop, hx, ih]

/-- The loop of `findVolumeByName` on a list in which every nil pointer comes after
an element named `volumeName`: it returns, the result is `vol` exactly when `vol` is
the first element of the list with that name, and nil exactly when no element has
that name. -/
theorem findVolumeLoop_spec (volumeName : String) (w : World) :
    ∀ vols : List (Option Volume),
      (∀ pre post, vols = pre ++ none :: post → ∃ u, some u ∈ pre ∧ u.Name = volumeName) →
      ∃ r, findVolumeLoop volumeName vols w = (.returned r, w) ∧
        (∀ vol, r = some vol ↔
          ∃ pre post, vols = pre ++ some vol :: post ∧ vol.Name = volumeName ∧
            ∀ u, some u ∈ pre → u.Name ≠ volumeName) ∧
        (r = none ↔ ∀ u, some u ∈ vols → u.Name ≠ volumeName) := by
  intro vols
  induction vols with
  | nil =>
    intro _
    exact ⟨none, rfl, by simp, by simp⟩
  | cons a rest ih =>
    intro hnil
    cases a with
    | none =>
      obtain ⟨u, hu, _⟩ := hnil [] rest rfl
      simp at hu
    | some x =>
      by_cases hx : x.Name = volumeName
      · refine ⟨some x, by simp [findVolumeLoop, hx], ?_, ?_⟩
        · intro vol
          constructor
          · intro h
            injection h with h
            subst h
            exact ⟨[], rest, rfl, hx, by simp⟩
          · rintro ⟨pre, post, hv, _, hpre⟩
            cases pre with
            | nil =>
              simp at hv
              rw [hv.1]
            | cons b pre =>
              simp at hv
              exact absurd hx (hpre x (by simp [hv.1]))
        · simp [hx]
      · have hrest : ∀ pre post, rest = pre ++ none :: post →
            ∃ u, some u ∈ pre ∧ u.Name = volumeName := by
          intro pre post hr
          obtain ⟨u, hu, hn⟩ := hnil (some x :: pre) post (by simp [hr])
          rcases List.mem_cons.mp hu with hux | hu
          · injection hux with hux
            exact absurd (hux ▸ hn) hx
          · exact ⟨u, hu, hn⟩
        obtain ⟨r, hrun, hsome, hnone⟩ := ih hrest
        refine ⟨r, by simp [findVolumeLoop, hx, hrun], ?_, ?_⟩
        · intro vol
          rw [hsome vol]
          constructor
          · rintro ⟨pre, post, hv, hn, hpre⟩
            refine ⟨some x :: pre, post, by simp [hv], hn, ?_⟩
            intro u hu
            rcases List.mem_cons.mp hu with hux | hu
            · injection hux with hux
              exact hux ▸ hx
            · exact hpre u hu
          · rintro ⟨pre, post, hv, hn, hpre⟩
            cases pre with
            | nil =>
              simp at hv
              exact absurd (hv.1 ▸ hn) hx
            | cons b pre =>
              simp at hv
              exact ⟨pre, post, hv.2, hn, fun u hu => hpre u (by simp [hu])⟩
        · rw [hnone]
          constructor
          · intro h u hu
            rcases List.mem_cons.mp hu with hux | hu
            · injection hux with hux
              exact hux ▸ hx
            · exact h u hu
          · intro h u hu
            exact h u (by simp [hu])

/-- Run of `findVolumeByName` when the client is built and the volumes are listed:
the two calls, then the loop over the answered list. -/
theorem findVolumeByName_ok (env : Env) (volumeName v : String) (w : World)
    (hc : env.newClient v = none) (hl : (env.volumeList ⟨v⟩ {}).2 = none) :
    findVolumeByName env volumeName v w =
      findVolumeLoop volumeName (env.volumeList ⟨v⟩ {}).1.Volumes
        (w ++ [.newClient v none, .volumeList ⟨v⟩ {} (env.volumeList ⟨v⟩ {}).1 none]) := by
  simp [findVolumeByName, NewClientWithOpts, VolumeList, hc, hl]

/-! ## Claims about the other operations -/

/-- C5, as amended: in every invocation that completes without panicking,
`StopContainer`, `FindContainerDetails`, `VolumeExist` and `CleanVolume` issue exactly
one request method on the Docker client (`ContainerRemove`, `ContainerInspect`,
`VolumeList`, `VolumeRemove` respectively), while `StartGogs` and
`StartDockerRegistry` issue exactly three: `ImagePull`, `ContainerCreate` and
`ContainerStart`, in that order. -/
theorem requests_per_operation (env : Env) (v : String) (w : World) :
    (∀ s, (StartGogs env v w).1 = .returned s →
        requests (StartGogs env v w).2 =
          requests w ++ [.ImagePull, .ContainerCreate, .ContainerStart]) ∧
    (∀ s, (StartDockerRegistry env v w).1 = .returned s →
        requests (StartDockerRegistry env v w).2 =
          requests w ++ [.ImagePull, .ContainerCreate, .ContainerStart]) ∧
    (∀ id, (StopContainer env id v w).1 = .returned () →
        requests (StopContainer env id v w).2 = requests w ++ [.ContainerRemove]) ∧
    (∀ id d, (FindContainerDetails env id v w).1 = .returned d →
        requests (FindContainerDetails env id v w).2 = requests w ++ [.ContainerInspect]) ∧
    (∀ volumeName b, (VolumeExist env volumeName v w).1 = .returned b →
        requests (VolumeExist env volumeName v w).2 = requests w ++ [.VolumeList]) ∧
    (∀ volumeName, (CleanVolume env volumeName v w).1 = .returned () →
        requests (CleanVolume env volumeName v w).2 = requests w ++ [.VolumeRemove]) := by
  refine ⟨?_, ?_, ?_, ?_, ?_, ?_⟩
  · intro s h
    obtain ⟨h0, h1, h2, h3, h4, h5⟩ := StartGogs_returned_inv env v w s h
    rcases first_ok_or_all_fail (pollOutcome env "10080" w) with hall | ⟨k, hk, hfail, hok⟩
    · rw [StartGogs_all_fail env v w h0 h1 h2 h3 h4 h5 hall] at h
      cases h
    · rw [StartGogs_first_ok env v w k h0 h1 h2 h3 h4 h5 hk hfail hok]
      simp [requests]
  · intro s h
    obtain ⟨h0, h1, h2, h3, h4, h5⟩ := StartDockerRegistry_returned_inv env v w s h
    rcases first_ok_or_all_fail (pollOutcome env "5000" w) with hall | ⟨k, hk, hfail, hok⟩
    · rw [StartDockerRegistry_all_fail env v w h0 h1 h2 h3 h4 h5 hall] at h
      cases h
    · rw [StartDockerRegistry_first_ok env v w k h0 h1 h2 h3 h4 h5 hk hfail hok]
      simp [requests]
  · intro id h
    cases h0 : env.newClient v with
    | some e => simp [StopContainer, NewClientWithOpts, h0] at h
    | none =>
      cases h1 : env.containerRemove ⟨v⟩ id { Force := true, RemoveVolumes := true } with
      | some e => simp [StopContainer, NewClientWithOpts, ContainerRemove, h0, h1] at h
      | none => simp [StopContainer, NewClientWithOpts, ContainerRemove, h0, h1, requests]
  · intro id d h
    cases h0 : env.newClient v with
    | some e => simp [FindContainerDetails, NewClientWithOpts, h0] at h
    | none =>
      cases h1 : (env.containerInspect ⟨v⟩ id).2 with
      | some e => simp [FindContainerDetails, NewClientWithOpts, ContainerInspect, h0, h1] at h
      | none =>
        cases hns : (env.containerInspect ⟨v⟩ id).1.NetworkSettings with
        | none =>
          simp [FindContainerDetails, NewClientWithOpts, ContainerInspect, h0, h1, hns] at h
        | some ns =>
          simp [FindContainerDetails, NewClientWithOpts, ContainerInspect, h0, h1, hns,
            requests]
  · intro volumeName b h
    cases hc : env.newClient v with
    | some e => simp [VolumeExist, findVolumeByName, NewClientWithOpts, hc] at h
    | none =>
      cases hl : (env.volumeList ⟨v⟩ {}).2 with
      | some e =>
        simp [VolumeExist, findVolumeByName, NewClientWithOpts, VolumeList, hc, hl] at h
      | none =>
        have hlog := findVolumeLoop_log volumeName (env.volumeList ⟨v⟩ {}).1.Volumes
          (w ++ [.newClient v none, .volumeList ⟨v⟩ {} (env.volumeList ⟨v⟩ {}).1 none])
        simp only [VolumeExist, run_bind, findVolumeByName_ok env volumeName v w hc hl] at h ⊢
        rcases hloop : findVolumeLoop volumeName (env.volumeList ⟨v⟩ {}).1.Volumes
          (w ++ [.newClient v none, .volumeList ⟨v⟩ {} (env.volumeList ⟨v⟩ {}).1 none])
          with ⟨o, w1⟩
        rw [hloop] at hlog h
        cases o with
        | panicked e => simp at h
        | returned r =>
          dsimp only at hlog
          simp [hloop, hlog, requests]
  · intro volumeName h
    cases h0 : env.newClient v with
    | some e => simp [CleanVolume, NewClientWithOpts, h0] at h
    | none =>
      cases h1 : env.volumeRemove ⟨v⟩ volumeName true with
      | some e => simp [CleanVolume, NewClientWithOpts, VolumeRemove, h0, h1] at h
      | none => simp [CleanVolume, NewClientWithOpts, VolumeRemove, h0, h1, requests]

/-- C6: `StopContainer` removes the container it is given. When the client is built
it issues exactly one `ContainerRemove`, for `id`, with `Force` and `RemoveVolumes`
set and `RemoveLinks` unset, and no other request; it panics exactly when building
the client or that `ContainerRemove` answers an error; and when building the client
fails it removes nothing. -/
theorem StopContainer_removes_given (env : Env) (id v : String) (w : World) :
    (env.newClient v = none →
        removals (StopContainer env id v w).2 =
          removals w ++ [(id, { RemoveVolumes := true, RemoveLinks := false, Force := true })] ∧
        requests (StopContainer env id v w).2 = requests w ++ [.ContainerRemove]) ∧
    ((StopContainer env id v w).1.isPanic = true ↔
        env.newClient v ≠ none ∨
        env.containerRemove ⟨v⟩ id
          { RemoveVolumes := true, RemoveLinks := false, Force := true } ≠ none) ∧
    (env.newClient v ≠ none → removals (StopContainer env id v w).2 = removals w) := by
  cases h0 : env.newClient v with
  | some e =>
    simp [StopContainer, NewClientWithOpts, h0, Outcome.isPanic, removals]
  | none =>
    cases h1 : env.containerRemove ⟨v⟩ id { Force := true, RemoveVolumes := true } with
    | some e =>
      simp [StopContainer, NewClientWithOpts, ContainerRemove, h0, h1, Outcome.isPanic,
        removals, requests]
    | none =>
      simp [StopContainer, NewClientWithOpts, ContainerRemove, h0, h1, Outcome.isPanic,
        removals, requests]

/-- C7, as amended: `FindContainerDetails` reports the address of the inspected
container. When the client is built, `ContainerInspect` succeeds and the
`NetworkSettings` pointer of its answer is non-nil, it returns the detail whose `Ip`
is the `NetworkSettings.IPAddress` of the answer to the one `ContainerInspect` call,
made for `id`; when `ContainerInspect` answers an error `e`, it prints `e` and
panics with `e`, returning no detail. -/
theorem FindContainerDetails_ip (env : Env) (id v : String) (w : World)
    (hc : env.newClient v = none) :
    (∀ ns, (env.containerInspect ⟨v⟩ id).2 = none →
        (env.containerInspect ⟨v⟩ id).1.NetworkSettings = some ns →
        FindContainerDetails env id v w =
          (.returned { Ip := ns.IPAddress },
            w ++ [.newClient v none,
                  .containerInspect ⟨v⟩ id (env.containerInspect ⟨v⟩ id).1 none])) ∧
    (∀ e, (env.containerInspect ⟨v⟩ id).2 = some e →
        FindContainerDetails env id v w =
          (.panicked e,
            w ++ [.newClient v none,
                  .containerInspect ⟨v⟩ id (env.containerInspect ⟨v⟩ id).1 (some e),
                  .println e]) ∧
        ∀ d, (FindContainerDetails env id v w).1 ≠ .returned d) := by
  constructor
  · intro ns h1 hns
    simp [FindContainerDetails, NewClientWithOpts, ContainerInspect, hc, h1, hns]
  · intro e h1
    simp [FindContainerDetails, NewClientWithOpts, ContainerInspect, hc, h1]

/-- C8, as amended: `VolumeExist` decides membership by exact name over the
unfiltered list. When the client is built and `VolumeList`, called with empty
filters, succeeds with a list `vols` of volume pointers in which every nil pointer
comes after an element named `volumeName` (no nil pointer before the first match,
none at all without a match): `VolumeExist` returns a boolean that is true exactly
when some volume of `vols` has `Name` equal to `volumeName`; `findVolumeByName`
returns `vol` exactly when `vol` is the first element of `vols` with that name, and
`nil` exactly when there is none, in particular for the empty list; and the one
request made is `VolumeList` with the zero `filters.Args`. -/
theorem VolumeExist_membership (env : Env) (volumeName v : String) (w : World)
    (hc : env.newClient v = none) (hl : (env.volumeList ⟨v⟩ {}).2 = none)
    (hnil : ∀ pre post, (env.volumeList ⟨v⟩ {}).1.Volumes = pre ++ none :: post →
      ∃ u, some u ∈ pre ∧ u.Name = volumeName) :
    (∃ b, VolumeExist env volumeName v w =
          (.returned b,
            w ++ [.newClient v none,
                  .volumeList ⟨v⟩ { fields := [] } (env.volumeList ⟨v⟩ {}).1 none]) ∧
        (b = true ↔
          ∃ vol, some vol ∈ (env.volumeList ⟨v⟩ {}).1.Volumes ∧ vol.Name = volumeName)) ∧
    (∃ r, findVolumeByName env volumeName v w =
          (.returned r,
            w ++ [.newClient v none,
                  .volumeList ⟨v⟩ { fields := [] } (env.volumeList ⟨v⟩ {}).1 none]) ∧
        (∀ vol, r = some vol ↔
          ∃ pre post, (env.volumeList ⟨v⟩ {}).1.Volumes = pre ++ some vol :: post ∧
            vol.Name = volumeName ∧ ∀ u, some u ∈ pre → u.Name ≠ volumeName) ∧
        (r = none ↔
          ∀ u, some u ∈ (env.volumeList ⟨v⟩ {}).1.Volumes → u.Name ≠ volumeName)) ∧
    ((env.volumeList ⟨v⟩ {}).1.Volumes = [] →
        (findVolumeByName env volumeName v w).1 = .returned none ∧
        (VolumeExist env volumeName v w).1 = .returned false) := by
  obtain ⟨r, hrun, hsome, hnone⟩ := findVolumeLoop_spec volumeName
    (w ++ [.newClient v none, .volumeList ⟨v⟩ {} (env.volumeList ⟨v⟩ {}).1 none])
    (env.volumeList ⟨v⟩ {}).1.Volumes hnil
  have hfind := findVolumeByName_ok env volumeName v w hc hl
  rw [hrun] at hfind
  refine ⟨⟨r != none, by simp [VolumeExist, hfind], ?_⟩, ⟨r, hfind, hsome, hnone⟩, ?_⟩
  · cases r with
    | none =>
      have hn := hnone.mp rfl
      constructor
      · intro hb; simp at hb
      · rintro ⟨vol, hm, hv⟩; exact absurd hv (hn vol hm)
    | some vol =>
      obtain ⟨pre, post, hv, hname, _⟩ := (hsome vol).mp rfl
      constructor
      · intro _; exact ⟨vol, by rw [hv]; simp, hname⟩
      · intro _; rfl
  · intro hempty
    have hr : r = none := hnone.mpr (by simp [hempty])
    subst hr
    simp [VolumeExist, hfind]

/-! ## Sample runs -/

/-- In the sample environment `StartGogs` returns `c1` after one dial. -/
theorem StartGogs_envOk :
    StartGogs envOk "1.40" [] =
      (.returned "c1",
        [.newClient "1.40" none, .imagePull ⟨"1.40"⟩ "jerdct/dahu-gogs" {} none,
         .copyToStdout none, .closeStream none,
         .containerCreate ⟨"1.40"⟩ gogsConfig gogsHostConfig {} "gogs_for_test"
           { ID := "c1" } none,
         .containerStart ⟨"1.40"⟩ "c1" {} none,
         .dial "tcp" "127.0.0.1:10080" none, .connClose]) := by
  rw [StartGogs_first_ok envOk "1.40" [] 0 rfl rfl rfl rfl rfl rfl (by decide)
    (fun j hj => absurd hj (Nat.not_lt_zero j)) rfl]
  rfl

/-- The first two dials fail in `envDialFails 2`. -/
theorem envDialFails_two_fail (tcpPort : String) :
    ∀ j, j < 2 → pollOutcome (envDialFails 2) tcpPort [] j ≠ none := by
  intro j hj
  simp [pollOutcome, envDialFails, hj]

/-- The third dial succeeds in `envDialFails 2`. -/
theorem envDialFails_third_ok (tcpPort : String) :
    pollOutcome (envDialFails 2) tcpPort [] 2 = none := by
  simp [pollOutcome, envDialFails]

/-- The first four dials fail in `envDialFails 4`. -/
theorem envDialFails_four_fail (tcpPort : String) :
    ∀ j, j < 4 → pollOutcome (envDialFails 4) tcpPort [] j ≠ none := by
  intro j hj
  simp [pollOutcome, envDialFails, hj]

/-! ## Instances of the claims on the sample runs -/

/-- C1 on samples: two failures then a success make 3 dials; four failures make 4. -/
theorem waitForService_dial_budget_witness :
    (dialsMade (waitForService (envDialFails 2) "10080" []).2 = 3 ∧
      dialOutcomes (waitForService (envDialFails 2) "10080" []).2 =
        [some sampleError, some sampleError, none]) ∧
    (dialsMade (waitForService (envDialFails 4) "10080" []).2 = 4 ∧
      dialOutcomes (waitForService (envDialFails 4) "10080" []).2 =
        [some sampleError, some sampleError, some sampleError, some sampleError]) := by
  have h2 := (waitForService_dial_budget (envDialFails 2) "10080" []).2.2.1 2 (by decide)
    (envDialFails_two_fail "10080") (envDialFails_third_ok "10080")
  have h4 := (waitForService_dial_budget (envDialFails 4) "10080" []).2.2.2
    (envDialFails_four_fail "10080")
  refine ⟨?_, ?_⟩
  · simpa [dialOutcomes, List.range_succ, pollOutcome, envDialFails] using h2
  · simpa [dialOutcomes, List.range_succ, pollOutcome, envDialFails] using h4

/-- C2 on a sample: a non-nil error is printed once and is the panic value. -/
theorem failFast_print_and_panic_witness :
    failFast (some sampleError) [] = (.panicked sampleError, [] ++ [.println sampleError]) ∧
    printed (failFast (some sampleError) []).2 = printed [] ++ [sampleError] :=
  (failFast_print_and_panic (some sampleError) []).2.1 sampleError rfl

/-- C3 on a sample: `StartGogs` returns in the sample environment, so the conclusion
holds there. -/
theorem start_returns_after_port_reached_witness :
    (StartGogs envOk "1.40" []).1 = .returned "c1" ∧
    ∃ body t,
      (StartGogs envOk "1.40" []).2 =
        [] ++ [.newClient "1.40" none, .imagePull ⟨"1.40"⟩ "jerdct/dahu-gogs" {} none,
               .copyToStdout none, .closeStream none,
               .containerCreate ⟨"1.40"⟩ gogsConfig gogsHostConfig {} "gogs_for_test" body none,
               .containerStart ⟨"1.40"⟩ body.ID {} none] ++ t ++
          [.dial "tcp" "127.0.0.1:10080" none, .connClose] ∧
      requests t = [] ∧ "c1" = body.ID :=
  ⟨by rw [StartGogs_envOk],
    (start_returns_after_port_reached envOk "1.40" [] "c1").1 (by rw [StartGogs_envOk])⟩

/-- C4 on a sample: when `ContainerCreate` fails, the log ends with it and the print. -/
theorem start_stops_at_first_failure_witness :
    StartGogs envCreateFails "1.40" [] =
      (.panicked sampleError,
        [] ++ [.newClient "1.40" none, .imagePull ⟨"1.40"⟩ "jerdct/dahu-gogs" {} none,
         .copyToStdout none, .closeStream none,
         .containerCreate ⟨"1.40"⟩ gogsConfig gogsHostConfig {} "gogs_for_test"
           (envCreateFails.containerCreate ⟨"1.40"⟩ gogsConfig gogsHostConfig {}
             "gogs_for_test").1 (some sampleError),
         .println sampleError]) :=
  (start_stops_at_first_failure envCreateFails "1.40" []).2.2.2.2.1 sampleError
    rfl rfl rfl rfl rfl

/-- C5 as stated fails: in the sample environment `StartGogs` completes without
panicking and issues three request methods on the client, not one. -/
theorem StartGogs_issues_three_requests :
    (StartGogs envOk "1.40" []).1 = .returned "c1" ∧
    requests (StartGogs envOk "1.40" []).2 = [.ImagePull, .ContainerCreate, .ContainerStart] ∧
    ¬ ∃ r, requests (StartGogs envOk "1.40" []).2 = [r] := by
  rw [StartGogs_envOk]
  simp [requests]

/-- C5 as amended, on a sample. -/
theorem requests_per_operation_witness :
    requests (StartGogs envOk "1.40" []).2 =
      requests [] ++ [.ImagePull, .ContainerCreate, .ContainerStart] :=
  (requests_per_operation envOk "1.40" []).1 "c1" (by rw [StartGogs_envOk])

/-- C6 on a sample: one forced removal, with volumes, of the given container. -/
theorem StopContainer_removes_given_witness :
    removals (StopContainer envOk "c1" "1.40" []).2 =
      removals [] ++ [("c1", { RemoveVolumes := true, RemoveLinks := false, Force := true })] ∧
    requests (StopContainer envOk "c1" "1.40" []).2 = requests [] ++ [.ContainerRemove] :=
  (StopContainer_removes_given envOk "c1" "1.40" []).1 rfl

/-- C7 as stated fails: in this sample run the client is built and
`ContainerInspect` succeeds, with an answer whose `NetworkSettings` pointer is nil;
`FindContainerDetails` then panics on the dereference, prints nothing, and returns
no detail. -/
theorem FindContainerDetails_nil_settings :
    envNoSettings.newClient "1.40" = none ∧
    (envNoSettings.containerInspect ⟨"1.40"⟩ "c1").2 = none ∧
    FindContainerDetails envNoSettings "c1" "1.40" [] =
      (.panicked nilDereference,
        [.newClient "1.40" none,
         .containerInspect ⟨"1.40"⟩ "c1" { NetworkSettings := none } none]) ∧
    ∀ d, (FindContainerDetails envNoSettings "c1" "1.40" []).1 ≠ .returned d := by
  have hrun : FindContainerDetails envNoSettings "c1" "1.40" [] =
      (.panicked nilDereference,
        [.newClient "1.40" none,
         .containerInspect ⟨"1.40"⟩ "c1" { NetworkSettings := none } none]) := rfl
  refine ⟨rfl, rfl, hrun, ?_⟩
  intro d h
  rw [hrun] at h
  cases h

/-- C7 as amended, on samples: the address reported is the inspected one; a failed
inspection panics with its error. -/
theorem FindContainerDetails_ip_witness :
    (FindContainerDetails envOk "c1" "1.40" []).1 = .returned { Ip := "172.17.0.2" } ∧
    (FindContainerDetails envInspectFails "c1" "1.40" []).1 = .panicked sampleError := by
  have h1 := (FindContainerDetails_ip envOk "c1" "1.40" [] rfl).1
    { IPAddress := "172.17.0.2" } rfl rfl
  have h2 := ((FindContainerDetails_ip envInspectFails "c1" "1.40" [] rfl).2 sampleError rfl).1
  rw [h1, h2]
  exact ⟨rfl, rfl⟩

/-- C8 as stated fails: in this sample run the client is built and `VolumeList`
succeeds with the list of a nil pointer followed by the volume `data`; a volume of
the list is named `data`, yet `VolumeExist` and `findVolumeByName` panic on the
dereference of the nil element instead of returning. -/
theorem VolumeExist_nil_element :
    envNilVolumeFirst.newClient "1.40" = none ∧
    (envNilVolumeFirst.volumeList ⟨"1.40"⟩ {}).2 = none ∧
    (∃ vol, some vol ∈ (envNilVolumeFirst.volumeList ⟨"1.40"⟩ {}).1.Volumes ∧
      vol.Name = "data") ∧
    (VolumeExist envNilVolumeFirst "data" "1.40" []).1 = .panicked nilDereference ∧
    (findVolumeByName envNilVolumeFirst "data" "1.40" []).1 = .panicked nilDereference :=
  ⟨rfl, rfl, ⟨{ Name := "data" }, by simp [envNilVolumeFirst], rfl⟩, rfl, rfl⟩

/-- C8 as amended, on samples: among the sample volumes `data`, `cache`, `data`, the
volume found for `data` is the first one, and `VolumeExist` answers true; and a nil
pointer after the volume `data` does not stop `data` from being found. -/
theorem VolumeExist_membership_witness :
    ((VolumeExist envOk "data" "1.40" []).1 = .returned true ∧
      (findVolumeByName envOk "data" "1.40" []).1 =
        .returned (some { Name := "data", Driver := "local" })) ∧
    (VolumeExist envNilVolumeLast "data" "1.40" []).1 = .returned true := by
  have hnil1 : ∀ pre post, (envOk.volumeList ⟨"1.40"⟩ {}).1.Volumes = pre ++ none :: post →
      ∃ u, some u ∈ pre ∧ u.Name = "data" := by
    intro pre post h
    have hmem : (none : Option Volume) ∈ (envOk.volumeList ⟨"1.40"⟩ {}).1.Volumes := by
      rw [h]; simp
    simp [envOk] at hmem
  have hnil2 : ∀ pre post,
      (envNilVolumeLast.volumeList ⟨"1.40"⟩ {}).1.Volumes = pre ++ none :: post →
      ∃ u, some u ∈ pre ∧ u.Name = "data" := by
    intro pre post h
    cases pre with
    | nil => simp [envNilVolumeLast] at h
    | cons b pre =>
      simp [envNilVolumeLast] at h
      exact ⟨{ Name := "data" }, by simp [h.1], rfl⟩
  obtain ⟨⟨b, hb, hbiff⟩, ⟨r, hr, hsome, _⟩, _⟩ :=
    VolumeExist_membership envOk "data" "1.40" [] rfl rfl hnil1
  obtain ⟨⟨b2, hb2, hbiff2⟩, _, _⟩ :=
    VolumeExist_membership envNilVolumeLast "data" "1.40" [] rfl rfl hnil2
  have hbt : b = true :=
    hbiff.mpr ⟨{ Name := "data", Driver := "local" }, by simp [envOk], rfl⟩
  have hrs : r = some { Name := "data", Driver := "local" } :=
    (hsome _).mpr ⟨[], [some { Name := "cache" }, some { Name := "data", Driver := "nfs" }],
      rfl, rfl, by simp⟩
  have hbt2 : b2 = true := hbiff2.mpr ⟨{ Name := "data" }, by simp [envNilVolumeLast], rfl⟩
  rw [hb, hr, hbt, hrs, hb2, hbt2]
  exact ⟨⟨rfl, rfl⟩, rfl⟩

/-- C9 on samples: two failures then a success sleep 2 seconds; four failures sleep
4 seconds. -/
theorem waitForService_no_backoff_witness :
    slept (waitForService (envDialFails 2) "10080" []).2 = 2 * Second ∧
    slept (waitForService (envDialFails 4) "10080" []).2 = 4 * Second := by
  have h2 := ((waitForService_no_backoff (envDialFails 2) "10080" []).2.2.1 2 (by decide)
    (envDialFails_two_fail "10080") (envDialFails_third_ok "10080")).1
  have h4 := ((waitForService_no_backoff (envDialFails 4) "10080" []).2.2.2
    (envDialFails_four_fail "10080")).1
  refine ⟨?_, ?_⟩
  · simpa [slept] using h2
  · simpa [slept] using h4

/-- C10 on a sample: polling port 5000 with four failed dials panics with the text
that names gogs. -/
theorem waitForService_gives_up_message_witness :
    (waitForService (envDialFails 4) "5000" []).1 =
      .panicked ⟨"gogs http port unreachable"⟩ :=
  (waitForService_gives_up_message (envDialFails 4) "5000" []).2.2.1
    (envDialFails_four_fail "5000")

end Container
